import Mathlib

/-
Verification development for the Solcials on-chain social program
(src/lib.rs, Anchor/Solana).  The program is embedded shallowly as a
ledger-state transition system: each Anchor instruction becomes a total
function from a ledger `State` to `Except PgError State`, where the
account constraints of the instruction (PDA existence / `init` absence,
`close`, payer balance) are modelled explicitly and the handler body is
translated line by line.  A failed instruction aborts the surrounding
transaction, so the observable transition `step` keeps the pre-state on
error.

Modelling conventions:
  - A 32-byte public key is an abstract key drawn from `Nat`; PDA
    derivation is modelled by keying each record family with the exact
    seed material the program uses (post: (author, timestamp); profile:
    user; follow: (follower, following); like: (user, post address)),
    which captures determinism and injectivity of the derivation.
  - Rust `u64` counters are `Nat` and every counter write reduces
    modulo 2 ^ 64 (`U64MOD`), matching two-complement wraparound of
    `+=` / `-=` in a release build.
  - Rust `String::len()` is the UTF-8 byte length, so length checks use
    `String.utf8ByteSize`.
  - Lamport balances of the author and treasury system accounts are a
    function `Pubkey -> Nat`; the rent deposit of a freshly initialized
    post account is an explicit input of the create operations (the
    handler reads it back as `post.to_account_info().lamports()`).
    Rent deposits of the small relation accounts are not tracked: no
    claim mentions them.
-/

namespace Solcials

/-- Abstract 32-byte Solana public key. -/
abbrev Pubkey := Nat

/-- Address of a post account: the PDA seed material ("post", author,
timestamp little-endian), modelled as the pair itself. -/
abbrev PostAddr := Pubkey × Int

/-- Modulus of a Rust `u64`. -/
def U64MOD : Nat := 2 ^ 64

/-- The `Post` account of src/lib.rs. -/
structure Post where
  author : Pubkey
  content : String
  post_type : Nat          -- u8: 0 = text, 1 = image
  image_nft : Option Pubkey
  reply_to : Option Pubkey
  timestamp : Int
  likes : Nat              -- u64
  reposts : Nat            -- u64
  replies : Nat            -- u64
  bump : Nat               -- u8
deriving DecidableEq

/-- The `UserProfile` account of src/lib.rs. -/
structure UserProfile where
  user : Pubkey
  username : Option String
  display_name : Option String
  bio : Option String
  avatar_url : Option String
  cover_image_url : Option String
  website_url : Option String
  location : Option String
  followers_count : Nat    -- u64
  following_count : Nat    -- u64
  post_count : Nat         -- u64
  created_at : Int
  verified : Bool
  bump : Nat               -- u8
deriving DecidableEq

/-- The `FollowRelation` account of src/lib.rs. -/
structure FollowRelation where
  follower : Pubkey
  following : Pubkey
  timestamp : Int
  bump : Nat
deriving DecidableEq

/-- The `LikeRelation` account of src/lib.rs.  The referenced post is
identified by its derived address. -/
structure LikeRelation where
  user : Pubkey
  post : PostAddr
  timestamp : Int
  bump : Nat
deriving DecidableEq

/-- The `SocialError` enum of src/lib.rs. -/
inductive SocialError where
  | ContentTooLong
  | ContentEmpty
  | UsernameTooLong
  | BioTooLong
  | AvatarUrlTooLong
  | DisplayNameTooLong
  | LocationTooLong
  | WebsiteUrlTooLong
  | CoverImageUrlTooLong
  | ImageArraysMismatch
  | TooManyImages
  | ChunkTooLarge
  | NotImagePost
deriving DecidableEq

/-- Errors an instruction can abort with: a program error from the
`SocialError` enum, or a runtime-level failure of an Anchor account
constraint / system-program transfer. -/
inductive PgError where
  | social (e : SocialError)
  | accountAlreadyExists     -- `init` on an address that already holds a record
  | accountNotInitialized    -- a required account does not exist
  | insufficientFunds        -- a lamport transfer with too small a source balance
deriving DecidableEq

section AList

variable {α β : Type} [DecidableEq α]

/-- Lookup in an association list (the ledger: address to record). -/
def alget : List (α × β) → α → Option β
  | [], _ => none
  | (k, v) :: t, k2 => if k = k2 then some v else alget t k2

/-- Remove every entry with the given key (closing an account). -/
def aldel (l : List (α × β)) (k : α) : List (α × β) :=
  l.filter fun kv => decide (kv.1 ≠ k)

/-- Write a record at a key (creating or overwriting an account). -/
def alset (l : List (α × β)) (k : α) (v : β) : List (α × β) :=
  (k, v) :: aldel l k

theorem alget_cons (k1 : α) (v1 : β) (t : List (α × β)) (k2 : α) :
    alget ((k1, v1) :: t) k2 = if k1 = k2 then some v1 else alget t k2 := rfl

theorem aldel_cons (k1 : α) (v1 : β) (t : List (α × β)) (k : α) :
    aldel ((k1, v1) :: t) k =
      if k1 = k then aldel t k else (k1, v1) :: aldel t k := by
  by_cases h : k1 = k <;> simp [aldel, List.filter_cons, h]

theorem alget_aldel_self (l : List (α × β)) (k : α) :
    alget (aldel l k) k = none := by
  induction l with
  | nil => rfl
  | cons kv t ih =>
    obtain ⟨k1, v1⟩ := kv
    by_cases h : k1 = k
    · simpa [aldel_cons, h] using ih
    · simpa [aldel_cons, alget_cons, h] using ih

theorem alget_aldel_ne (l : List (α × β)) (k k2 : α) (h : k2 ≠ k) :
    alget (aldel l k) k2 = alget l k2 := by
  induction l with
  | nil => rfl
  | cons kv t ih =>
    obtain ⟨k1, v1⟩ := kv
    by_cases hk : k1 = k
    · have hne : k1 ≠ k2 := by
        subst hk
        exact fun hx => h hx.symm
      simp only [aldel_cons, alget_cons, if_pos hk, if_neg hne]
      exact ih
    · by_cases h2 : k1 = k2
      · subst h2
        rw [aldel_cons, if_neg hk]
        rw [alget_cons, if_pos rfl, alget_cons, if_pos rfl]
      · simp only [aldel_cons, alget_cons, if_neg hk, if_neg h2]
        exact ih

theorem alget_alset_self (l : List (α × β)) (k : α) (v : β) :
    alget (alset l k v) k = some v := by
  rw [alset, alget_cons, if_pos rfl]

theorem alget_alset_ne (l : List (α × β)) (k k2 : α) (v : β) (h : k2 ≠ k) :
    alget (alset l k v) k2 = alget l k2 := by
  rw [alset, alget_cons, if_neg (fun hx => h hx.symm)]
  exact alget_aldel_ne l k k2 h

theorem alget_isSome_of_mem {l : List (α × β)} {k : α} {v : β}
    (h : (k, v) ∈ l) : (alget l k).isSome := by
  induction l with
  | nil => cases h
  | cons kv t ih =>
    obtain ⟨k1, v1⟩ := kv
    rcases List.mem_cons.mp h with h1 | h1
    · cases h1
      rw [alget_cons, if_pos rfl]
      rfl
    · by_cases hk : k1 = k
      · rw [alget_cons, if_pos hk]; rfl
      · rw [alget_cons, if_neg hk]; exact ih h1

theorem aldel_of_alget_none {l : List (α × β)} {k : α}
    (h : alget l k = none) : aldel l k = l := by
  induction l with
  | nil => rfl
  | cons kv t ih =>
    obtain ⟨k1, v1⟩ := kv
    by_cases hk : k1 = k
    · rw [alget_cons, if_pos hk] at h
      cases h
    · rw [alget_cons, if_neg hk] at h
      rw [aldel_cons, if_neg hk, ih h]

theorem mem_keys_of_mem_keys_aldel {l : List (α × β)} {k a : α}
    (h : a ∈ (aldel l k).map Prod.fst) : a ∈ l.map Prod.fst := by
  induction l with
  | nil => exact h
  | cons kv t ih =>
    obtain ⟨k1, v1⟩ := kv
    simp only [List.map_cons]
    by_cases hk : k1 = k
    · rw [aldel_cons, if_pos hk] at h
      exact List.mem_cons.mpr (Or.inr (ih h))
    · rw [aldel_cons, if_neg hk, List.map_cons] at h
      rcases List.mem_cons.mp h with h1 | h1
      · exact List.mem_cons.mpr (Or.inl h1)
      · exact List.mem_cons.mpr (Or.inr (ih h1))

theorem keys_nodup_aldel {l : List (α × β)} {k : α}
    (h : (l.map Prod.fst).Nodup) : ((aldel l k).map Prod.fst).Nodup := by
  induction l with
  | nil => exact h
  | cons kv t ih =>
    obtain ⟨k1, v1⟩ := kv
    simp only [List.map_cons, List.nodup_cons] at h
    by_cases hk : k1 = k
    · rw [aldel_cons, if_pos hk]
      exact ih h.2
    · rw [aldel_cons, if_neg hk]
      simp only [List.map_cons, List.nodup_cons]
      exact ⟨fun hm => h.1 (mem_keys_of_mem_keys_aldel hm), ih h.2⟩

theorem not_mem_keys_of_alget_none {l : List (α × β)} {k : α}
    (h : alget l k = none) : k ∉ l.map Prod.fst := by
  intro hmem
  rcases List.mem_map.mp hmem with ⟨kv, hkv, hfst⟩
  obtain ⟨k1, v1⟩ := kv
  cases hfst
  have hs := alget_isSome_of_mem hkv
  rw [h] at hs
  cases hs

theorem keys_nodup_alset {l : List (α × β)} {k : α} {v : β}
    (h : (l.map Prod.fst).Nodup) : ((alset l k v).map Prod.fst).Nodup := by
  simp only [alset, List.map_cons]
  refine List.nodup_cons.mpr ⟨?_, keys_nodup_aldel h⟩
  exact not_mem_keys_of_alget_none (alget_aldel_self l k)

theorem mem_of_alget_some {l : List (α × β)} {k : α} {v : β}
    (h : alget l k = some v) : (k, v) ∈ l := by
  induction l with
  | nil => cases h
  | cons kv t ih =>
    obtain ⟨k1, v1⟩ := kv
    by_cases hk : k1 = k
    · rw [alget_cons, if_pos hk] at h
      injection h with h2
      subst hk
      subst h2
      exact List.mem_cons_self _ _
    · rw [alget_cons, if_neg hk] at h
      exact List.mem_cons_of_mem _ (ih h)

theorem perm_alget_some {l : List (α × β)} {k : α} {v : β}
    (hnd : (l.map Prod.fst).Nodup) (h : alget l k = some v) :
    l.Perm ((k, v) :: aldel l k) := by
  induction l with
  | nil => cases h
  | cons kv t ih =>
    obtain ⟨k1, v1⟩ := kv
    simp only [List.map_cons, List.nodup_cons] at hnd
    by_cases hk : k1 = k
    · rw [alget_cons, if_pos hk] at h
      injection h with h2
      subst hk
      subst h2
      have ht : alget t k1 = none := by
        cases hget : alget t k1 with
        | none => rfl
        | some w =>
          exact absurd (List.mem_map.mpr ⟨(k1, w), mem_of_alget_some hget, rfl⟩) hnd.1
      rw [aldel_cons, if_pos rfl, aldel_of_alget_none ht]
    · rw [alget_cons, if_neg hk] at h
      have hperm := ih hnd.2 h
      rw [aldel_cons, if_neg hk]
      refine List.Perm.trans (hperm.cons (k1, v1)) ?_
      exact List.Perm.swap (k, v) (k1, v1) (aldel t k)

end AList

/-- The on-chain ledger: each record family keyed by its PDA seed
material, plus the lamport balances of the system accounts involved in
fee payment.  Rent deposits of the small relation/profile accounts are
outside every claim and are not tracked. -/
structure State where
  posts : List (PostAddr × Post)
  profiles : List (Pubkey × UserProfile)
  follows : List ((Pubkey × Pubkey) × FollowRelation)
  likes : List ((Pubkey × PostAddr) × LikeRelation)
  balances : Pubkey → Nat

/-- `transfer_lamports` (src/lib.rs 291-308): moves `amount` lamports
from one system account to another through the system program, which
rejects the transfer when the source balance is smaller than the
amount. -/
def transfer_lamports (bal : Pubkey → Nat) (fromAcc toAcc : Pubkey)
    (amount : Nat) : Except PgError (Pubkey → Nat) :=
  if bal fromAcc < amount then .error .insufficientFunds
  else .ok (fun k =>
    if k = toAcc then
      (if toAcc = fromAcc then bal fromAcc - amount else bal toAcc) + amount
    else if k = fromAcc then bal fromAcc - amount else bal k)

/-- `create_text_post` (src/lib.rs 15-53) together with the Anchor
account constraints of `CreateTextPost` (src/lib.rs 317-341): the post
PDA is `init` (must be absent; the author pays its rent deposit), the
author user_profile PDA must exist, the author signs, and the platform
treasury is an arbitrary mutable account.  `rent` is the storage deposit
`init` moves into the fresh post account; the handler reads it back as
`post.to_account_info().lamports()` and computes
`platform_fee = total_rent / 100`. -/
def create_text_post (s : State) (author : Pubkey) (content : String)
    (timestamp : Int) (reply_to : Option Pubkey) (treasury : Pubkey)
    (rent : Nat) (bump : Nat) : Except PgError State :=
  if (alget s.posts (author, timestamp)).isSome then .error .accountAlreadyExists
  else match alget s.profiles author with
  | none => .error .accountNotInitialized
  | some profile =>
    -- `init` debits the rent deposit of the fresh post account
    if s.balances author < rent then .error .insufficientFunds
    else
      -- require!(content.len() <= 280, SocialError::ContentTooLong);
      if 280 < content.utf8ByteSize then .error (.social .ContentTooLong)
      -- require!(content.len() > 0, SocialError::ContentEmpty);
      else if content.utf8ByteSize = 0 then .error (.social .ContentEmpty)
      else
        -- transfer_lamports(author, platform_treasury, total_rent / 100)?;
        match transfer_lamports
            (fun k => if k = author then s.balances author - rent else s.balances k)
            author treasury (rent / 100) with
        | .error e => .error e
        | .ok bal2 =>
          .ok { s with
                posts := alset s.posts (author, timestamp)
                  { author := author, content := content, post_type := 0,
                    image_nft := none, reply_to := reply_to,
                    timestamp := timestamp, likes := 0, reposts := 0,
                    replies := 0, bump := bump },
                -- ctx.accounts.user_profile.post_count += 1;
                profiles := alset s.profiles author
                  { profile with post_count := (profile.post_count + 1) % U64MOD },
                balances := bal2 }

/-- `create_image_post` (src/lib.rs 56-94) with `CreateImagePost`
(src/lib.rs 343-369): identical to `create_text_post` except the 10%
fee divisor (`total_rent / 10`) and `post_type = 1`. -/
def create_image_post (s : State) (author : Pubkey) (content : String)
    (timestamp : Int) (reply_to : Option Pubkey) (treasury : Pubkey)
    (rent : Nat) (bump : Nat) : Except PgError State :=
  if (alget s.posts (author, timestamp)).isSome then .error .accountAlreadyExists
  else match alget s.profiles author with
  | none => .error .accountNotInitialized
  | some profile =>
    if s.balances author < rent then .error .insufficientFunds
    else
      if 280 < content.utf8ByteSize then .error (.social .ContentTooLong)
      else if content.utf8ByteSize = 0 then .error (.social .ContentEmpty)
      else
        match transfer_lamports
            (fun k => if k = author then s.balances author - rent else s.balances k)
            author treasury (rent / 10) with
        | .error e => .error e
        | .ok bal2 =>
          .ok { s with
                posts := alset s.posts (author, timestamp)
                  { author := author, content := content, post_type := 1,
                    image_nft := none, reply_to := reply_to,
                    timestamp := timestamp, likes := 0, reposts := 0,
                    replies := 0, bump := bump },
                profiles := alset s.profiles author
                  { profile with post_count := (profile.post_count + 1) % U64MOD },
                balances := bal2 }

/-- `link_cnft_to_post` (src/lib.rs 97-111) with `LinkCNftToPost`
(src/lib.rs 497-504): the post is an arbitrary mutable `Post` account
and the signer is any signing account; the accounts struct contains no
constraint tying the signer to `post.author`. -/
def link_cnft_to_post (s : State) (postAddr : PostAddr) (_signer : Pubkey)
    (cnft_address : Pubkey) : Except PgError State :=
  match alget s.posts postAddr with
  | none => .error .accountNotInitialized
  | some post =>
    -- require!(post.post_type == 1, SocialError::NotImagePost);
    if post.post_type ≠ 1 then .error (.social .NotImagePost)
    else
      -- post.image_nft = Some(cnft_address);
      .ok { s with posts := alset s.posts postAddr { post with image_nft := some cnft_address } }

/-- `follow_user` (src/lib.rs 114-129) with `FollowUser` (src/lib.rs
372-401): the follow PDA is `init`, both profile PDAs must exist, the
follower signs.  Both counters are incremented; the profiles are
serialized back at instruction exit in account order, so for the aliased
case follower = following the later write wins. -/
def follow_user (s : State) (follower following : Pubkey) (now : Int)
    (bump : Nat) : Except PgError State :=
  if (alget s.follows (follower, following)).isSome then .error .accountAlreadyExists
  else match alget s.profiles follower with
  | none => .error .accountNotInitialized
  | some follower_profile =>
    match alget s.profiles following with
    | none => .error .accountNotInitialized
    | some following_profile =>
      let rel : FollowRelation :=
        { follower := follower, following := following, timestamp := now, bump := bump }
      -- ctx.accounts.follower_profile.following_count += 1;
      let profiles1 := alset s.profiles follower
        { follower_profile with following_count := (follower_profile.following_count + 1) % U64MOD }
      -- ctx.accounts.following_profile.followers_count += 1;
      let profiles2 := alset profiles1 following
        { following_profile with followers_count := (following_profile.followers_count + 1) % U64MOD }
      .ok { s with follows := alset s.follows (follower, following) rel,
                   profiles := profiles2 }

/-- `unfollow_user` (src/lib.rs 132-136) with `UnfollowUser` (src/lib.rs
404-431): the follow PDA must exist and is closed to the follower; both
profile PDAs must exist and are declared mutable, but the empty handler
body never touches them - in particular no counter is decremented. -/
def unfollow_user (s : State) (follower following : Pubkey) : Except PgError State :=
  match alget s.follows (follower, following) with
  | none => .error .accountNotInitialized
  | some _ =>
    match alget s.profiles follower with
    | none => .error .accountNotInitialized
    | some _ =>
      match alget s.profiles following with
      | none => .error .accountNotInitialized
      | some _ =>
        .ok { s with follows := aldel s.follows (follower, following) }

/-- `like_post` (src/lib.rs 139-153) with `LikePost` (src/lib.rs
433-450): the like PDA is `init`, the post account must exist, the user
signs.  No user profile is involved. -/
def like_post (s : State) (user : Pubkey) (postAddr : PostAddr) (now : Int)
    (bump : Nat) : Except PgError State :=
  if (alget s.likes (user, postAddr)).isSome then .error .accountAlreadyExists
  else match alget s.posts postAddr with
  | none => .error .accountNotInitialized
  | some post =>
    let rel : LikeRelation :=
      { user := user, post := postAddr, timestamp := now, bump := bump }
    -- ctx.accounts.post.likes += 1;
    .ok { s with likes := alset s.likes (user, postAddr) rel,
                 posts := alset s.posts postAddr { post with likes := (post.likes + 1) % U64MOD } }

/-- `unlike_post` (src/lib.rs 156-161) with `UnlikePost` (src/lib.rs
452-467): the like PDA must exist and is closed to the user, the post is
mutable.  The handler performs `post.likes -= 1`, an unchecked u64
subtraction, modelled as wraparound modulo 2 ^ 64. -/
def unlike_post (s : State) (user : Pubkey) (postAddr : PostAddr) : Except PgError State :=
  match alget s.likes (user, postAddr) with
  | none => .error .accountNotInitialized
  | some _ =>
    match alget s.posts postAddr with
    | none => .error .accountNotInitialized
    | some post =>
      .ok { s with likes := aldel s.likes (user, postAddr),
                   posts := alset s.posts postAddr { post with likes := (post.likes + (U64MOD - 1)) % U64MOD } }

/-- `initialize_user_profile` (src/lib.rs 164-185) with
`InitializeUserProfile` (src/lib.rs 469-483): the profile PDA is `init`
(one-time creation), all optional fields start empty, all counters start
at zero, `created_at` comes from the host clock. -/
def initialize_user_profile (s : State) (user : Pubkey) (now : Int)
    (bump : Nat) : Except PgError State :=
  if (alget s.profiles user).isSome then .error .accountAlreadyExists
  else
    let p : UserProfile :=
      { user := user, username := none, display_name := none, bio := none,
        avatar_url := none, cover_image_url := none, website_url := none,
        location := none, followers_count := 0, following_count := 0,
        post_count := 0, created_at := now, verified := false, bump := bump }
    .ok { s with profiles := alset s.profiles user p }

/-- The username block of `update_user_profile` (src/lib.rs 200-203). -/
def applyUsername (p : UserProfile) (username : Option String) : Except PgError UserProfile :=
  match username with
  | none => .ok p
  | some v =>
    if 50 < v.utf8ByteSize then .error (.social .UsernameTooLong)
    else .ok { p with username := some v }

/-- The display_name block of `update_user_profile` (src/lib.rs 205-208). -/
def applyDisplayName (p : UserProfile) (display_name : Option String) : Except PgError UserProfile :=
  match display_name with
  | none => .ok p
  | some v =>
    if 50 < v.utf8ByteSize then .error (.social .DisplayNameTooLong)
    else .ok { p with display_name := some v }

/-- The bio block of `update_user_profile` (src/lib.rs 210-213). -/
def applyBio (p : UserProfile) (bio : Option String) : Except PgError UserProfile :=
  match bio with
  | none => .ok p
  | some v =>
    if 160 < v.utf8ByteSize then .error (.social .BioTooLong)
    else .ok { p with bio := some v }

/-- The avatar_url block of `update_user_profile` (src/lib.rs 215-218). -/
def applyAvatarUrl (p : UserProfile) (avatar_url : Option String) : Except PgError UserProfile :=
  match avatar_url with
  | none => .ok p
  | some v =>
    if 200 < v.utf8ByteSize then .error (.social .AvatarUrlTooLong)
    else .ok { p with avatar_url := some v }

/-- The cover_image_url block of `update_user_profile` (src/lib.rs 220-223). -/
def applyCoverImageUrl (p : UserProfile) (cover_image_url : Option String) : Except PgError UserProfile :=
  match cover_image_url with
  | none => .ok p
  | some v =>
    if 200 < v.utf8ByteSize then .error (.social .CoverImageUrlTooLong)
    else .ok { p with cover_image_url := some v }

/-- The website_url block of `update_user_profile` (src/lib.rs 225-228). -/
def applyWebsiteUrl (p : UserProfile) (website_url : Option String) : Except PgError UserProfile :=
  match website_url with
  | none => .ok p
  | some v =>
    if 200 < v.utf8ByteSize then .error (.social .WebsiteUrlTooLong)
    else .ok { p with website_url := some v }

/-- The location block of `update_user_profile` (src/lib.rs 230-233). -/
def applyLocation (p : UserProfile) (location : Option String) : Except PgError UserProfile :=
  match location with
  | none => .ok p
  | some v =>
    if 100 < v.utf8ByteSize then .error (.social .LocationTooLong)
    else .ok { p with location := some v }

/-- The handler body of `update_user_profile` (src/lib.rs 188-237): the
seven optional fields are validated and assigned block by block in
argument order; the first failing block aborts the instruction. -/
def update_profile_fields (p : UserProfile)
    (username display_name bio avatar_url cover_image_url website_url location : Option String) :
    Except PgError UserProfile :=
  match applyUsername p username with
  | .error e => .error e
  | .ok p =>
  match applyDisplayName p display_name with
  | .error e => .error e
  | .ok p =>
  match applyBio p bio with
  | .error e => .error e
  | .ok p =>
  match applyAvatarUrl p avatar_url with
  | .error e => .error e
  | .ok p =>
  match applyCoverImageUrl p cover_image_url with
  | .error e => .error e
  | .ok p =>
  match applyWebsiteUrl p website_url with
  | .error e => .error e
  | .ok p =>
  match applyLocation p location with
  | .error e => .error e
  | .ok p => .ok p

/-- `update_user_profile` (src/lib.rs 188-237) with `UpdateUserProfile`
(src/lib.rs 486-495): the mutated profile is the PDA derived from the
signer, so only the owner of a profile can reach the handler. -/
def update_user_profile (s : State) (user : Pubkey)
    (username display_name bio avatar_url cover_image_url website_url location : Option String) :
    Except PgError State :=
  match alget s.profiles user with
  | none => .error .accountNotInitialized
  | some p =>
    match update_profile_fields p username display_name bio avatar_url cover_image_url website_url location with
    | .error e => .error e
    | .ok p2 => .ok { s with profiles := alset s.profiles user p2 }

/-- One request to the program: an instruction together with all its
inputs (arguments, signer, host clock value, rent deposit, PDA bump).
`initialize_app` is the `initialize` instruction of src/lib.rs 9-12,
which writes nothing. -/
inductive Op where
  | initialize_app
  | create_text_post (author : Pubkey) (content : String) (timestamp : Int)
      (reply_to : Option Pubkey) (treasury : Pubkey) (rent : Nat) (bump : Nat)
  | create_image_post (author : Pubkey) (content : String) (timestamp : Int)
      (reply_to : Option Pubkey) (treasury : Pubkey) (rent : Nat) (bump : Nat)
  | link_cnft_to_post (postAddr : PostAddr) (signer : Pubkey) (cnft_address : Pubkey)
  | follow_user (follower : Pubkey) (following : Pubkey) (now : Int) (bump : Nat)
  | unfollow_user (follower : Pubkey) (following : Pubkey)
  | like_post (user : Pubkey) (postAddr : PostAddr) (now : Int) (bump : Nat)
  | unlike_post (user : Pubkey) (postAddr : PostAddr)
  | initialize_user_profile (user : Pubkey) (now : Int) (bump : Nat)
  | update_user_profile (user : Pubkey)
      (username display_name bio avatar_url cover_image_url website_url location : Option String)

/-- Dispatch one instruction. -/
def run (s : State) : Op → Except PgError State
  | .initialize_app => .ok s
  | .create_text_post a c ts r t rent b => create_text_post s a c ts r t rent b
  | .create_image_post a c ts r t rent b => create_image_post s a c ts r t rent b
  | .link_cnft_to_post pa sg cn => link_cnft_to_post s pa sg cn
  | .follow_user f g now b => follow_user s f g now b
  | .unfollow_user f g => unfollow_user s f g
  | .like_post u pa now b => like_post s u pa now b
  | .unlike_post u pa => unlike_post s u pa
  | .initialize_user_profile u now b => initialize_user_profile s u now b
  | .update_user_profile u a1 a2 a3 a4 a5 a6 a7 => update_user_profile s u a1 a2 a3 a4 a5 a6 a7

/-- The observable transition: the host commits the new state on success
and discards every write of a failed transaction. -/
def step (s : State) (op : Op) : State :=
  match run s op with
  | .ok s2 => s2
  | .error _ => s

/-- Whether an instruction succeeded. -/
def isOkB : Except PgError State → Bool
  | .ok _ => true
  | .error _ => false

/-- States reachable from an empty ledger (no record of any kind yet;
system-account balances arbitrary) by any sequence of instructions. -/
inductive Reachable : State → Prop where
  | init (b : Pubkey → Nat) :
      Reachable { posts := [], profiles := [], follows := [], likes := [], balances := b }
  | step (s : State) (op : Op) : Reachable s → Reachable (step s op)


/-- Number of like relations in the ledger that reference a given post
address. -/
def likeCountOf (l : List ((Pubkey × PostAddr) × LikeRelation)) (addr : PostAddr) : Nat :=
  l.countP fun kv => decide (kv.1.2 = addr)

theorem likeCountOf_cons (kv : (Pubkey × PostAddr) × LikeRelation)
    (l : List ((Pubkey × PostAddr) × LikeRelation)) (addr : PostAddr) :
    likeCountOf (kv :: l) addr =
      likeCountOf l addr + if kv.1.2 = addr then 1 else 0 := by
  simp [likeCountOf, List.countP_cons]

theorem likeCountOf_alset_none {l : List ((Pubkey × PostAddr) × LikeRelation)}
    {k : Pubkey × PostAddr} (rel : LikeRelation) (h : alget l k = none)
    (addr : PostAddr) :
    likeCountOf (alset l k rel) addr =
      likeCountOf l addr + if k.2 = addr then 1 else 0 := by
  rw [alset, aldel_of_alget_none h, likeCountOf_cons]

theorem likeCountOf_aldel_some {l : List ((Pubkey × PostAddr) × LikeRelation)}
    {k : Pubkey × PostAddr} {rel : LikeRelation}
    (hnd : (l.map Prod.fst).Nodup) (h : alget l k = some rel) (addr : PostAddr) :
    likeCountOf l addr =
      likeCountOf (aldel l k) addr + if k.2 = addr then 1 else 0 := by
  have hperm := perm_alget_some hnd h
  have h1 : likeCountOf l addr = likeCountOf ((k, rel) :: aldel l k) addr :=
    hperm.countP_eq _
  rw [h1, likeCountOf_cons]

/-- Arithmetic of the modelled u64 increment. -/
theorem u64_add_one_mod (c : Nat) :
    (c % U64MOD + 1) % U64MOD = (c + 1) % U64MOD := by
  rw [Nat.add_mod c 1 U64MOD, Nat.mod_eq_of_lt (show (1 : Nat) < U64MOD by decide)]

/-- Arithmetic of the modelled u64 decrement on a positive counter. -/
theorem u64_sub_one_mod (c : Nat) (h : 1 ≤ c) :
    (c % U64MOD + (U64MOD - 1)) % U64MOD = (c - 1) % U64MOD := by
  have h1 : (U64MOD - 1) % U64MOD = U64MOD - 1 :=
    Nat.mod_eq_of_lt (by decide)
  have h2 : c + (U64MOD - 1) = (c - 1) + U64MOD := by
    have h3 : 1 ≤ U64MOD := by decide
    omega
  calc (c % U64MOD + (U64MOD - 1)) % U64MOD
      = (c % U64MOD + (U64MOD - 1) % U64MOD) % U64MOD := by rw [h1]
    _ = (c + (U64MOD - 1)) % U64MOD := (Nat.add_mod c (U64MOD - 1) U64MOD).symm
    _ = ((c - 1) + U64MOD) % U64MOD := by rw [h2]
    _ = (c - 1) % U64MOD := Nat.add_mod_right _ _

/-- Incrementing then decrementing a u64 value below the modulus is the
identity. -/
theorem u64_inc_dec (c : Nat) (h : c < U64MOD) :
    ((c + 1) % U64MOD + (U64MOD - 1)) % U64MOD = c := by
  rw [u64_sub_one_mod (c + 1) (Nat.le_add_left 1 c)]
  simp [Nat.mod_eq_of_lt h]

/-- Structural invariant of reachable ledgers: like-relation keys are
unique, every like relation points at an existing post, each present
post stores the number of like relations that reference it (reduced
modulo 2 ^ 64), and the reserved counters are identically zero. -/
structure InvState (s : State) : Prop where
  likes_nodup : (s.likes.map Prod.fst).Nodup
  like_post_present : ∀ k : Pubkey × PostAddr,
    (alget s.likes k).isSome → (alget s.posts k.2).isSome
  post_likes : ∀ addr post, alget s.posts addr = some post →
    post.likes = likeCountOf s.likes addr % U64MOD
  post_reposts : ∀ addr post, alget s.posts addr = some post → post.reposts = 0
  post_replies : ∀ addr post, alget s.posts addr = some post → post.replies = 0

theorem likeCountOf_eq_zero_of_absent {s : State} (h : InvState s)
    {addr : PostAddr} (habs : alget s.posts addr = none) :
    likeCountOf s.likes addr = 0 := by
  by_contra hne
  have hpos : 0 < likeCountOf s.likes addr := Nat.pos_of_ne_zero hne
  rw [likeCountOf] at hpos
  rcases List.countP_pos_iff.mp hpos with ⟨kv, hmem, hp⟩
  obtain ⟨k1, rel1⟩ := kv
  have hsome := alget_isSome_of_mem hmem
  have hpresent := h.like_post_present k1 hsome
  have heq : k1.2 = addr := of_decide_eq_true hp
  rw [heq, habs] at hpresent
  cases hpresent

theorem one_le_likeCountOf {s : State} (h : InvState s) {u : Pubkey}
    {addr : PostAddr} {rel : LikeRelation}
    (hrel : alget s.likes (u, addr) = some rel) :
    1 ≤ likeCountOf s.likes addr := by
  have hc := likeCountOf_aldel_some h.likes_nodup hrel addr
  rw [if_pos rfl] at hc
  omega

theorem alget_alset_isSome {α β : Type} [DecidableEq α]
    {l : List (α × β)} {k2 : α} (k : α) (v : β)
    (h : (alget l k2).isSome) : (alget (alset l k v) k2).isSome := by
  by_cases hk : k2 = k
  · subst hk; rw [alget_alset_self]; rfl
  · rw [alget_alset_ne l k k2 v hk]; exact h

/-- The invariant only looks at the posts and likes components. -/
theorem invState_congr {s s2 : State} (hp : s2.posts = s.posts)
    (hl : s2.likes = s.likes) (h : InvState s) : InvState s2 := by
  refine ⟨?_, ?_, ?_, ?_, ?_⟩
  · rw [hl]; exact h.likes_nodup
  · intro k hk; rw [hl] at hk; rw [hp]; exact h.like_post_present k hk
  · intro addr post hpost; rw [hp] at hpost; rw [hl]; exact h.post_likes addr post hpost
  · intro addr post hpost; rw [hp] at hpost; exact h.post_reposts addr post hpost
  · intro addr post hpost; rw [hp] at hpost; exact h.post_replies addr post hpost

/-- Creating a fresh post with zeroed counters at an absent address
preserves the invariant, whatever happens to profiles and balances. -/
theorem invState_create {s : State} (hs : InvState s) {addr : PostAddr}
    {post : Post} (habs : alget s.posts addr = none)
    (hlikes : post.likes = 0) (hreposts : post.reposts = 0)
    (hreplies : post.replies = 0)
    (profiles2 : List (Pubkey × UserProfile)) (bal : Pubkey → Nat) :
    InvState { s with posts := alset s.posts addr post,
                      profiles := profiles2, balances := bal } := by
  refine ⟨hs.likes_nodup, ?_, ?_, ?_, ?_⟩
  · intro k hk
    exact alget_alset_isSome addr post (hs.like_post_present k hk)
  · intro addr2 post2 hpost2
    by_cases haddr : addr2 = addr
    · subst haddr
      rw [alget_alset_self] at hpost2
      injection hpost2 with hpost2
      subst hpost2
      rw [hlikes, likeCountOf_eq_zero_of_absent hs habs]
      rfl
    · rw [alget_alset_ne s.posts addr addr2 post haddr] at hpost2
      exact hs.post_likes addr2 post2 hpost2
  · intro addr2 post2 hpost2
    by_cases haddr : addr2 = addr
    · subst haddr
      rw [alget_alset_self] at hpost2
      injection hpost2 with hpost2
      subst hpost2
      exact hreposts
    · rw [alget_alset_ne s.posts addr addr2 post haddr] at hpost2
      exact hs.post_reposts addr2 post2 hpost2
  · intro addr2 post2 hpost2
    by_cases haddr : addr2 = addr
    · subst haddr
      rw [alget_alset_self] at hpost2
      injection hpost2 with hpost2
      subst hpost2
      exact hreplies
    · rw [alget_alset_ne s.posts addr addr2 post haddr] at hpost2
      exact hs.post_replies addr2 post2 hpost2

/-- Liking a post preserves the invariant. -/
theorem invState_like {s : State} (hs : InvState s) {u : Pubkey}
    {addr : PostAddr} {post : Post}
    (hnone : alget s.likes (u, addr) = none)
    (hpost : alget s.posts addr = some post) (rel : LikeRelation) :
    InvState { s with likes := alset s.likes (u, addr) rel,
                      posts := alset s.posts addr
                        { post with likes := (post.likes + 1) % U64MOD } } := by
  refine ⟨keys_nodup_alset hs.likes_nodup, ?_, ?_, ?_, ?_⟩
  · intro k hk
    by_cases hkk : k = (u, addr)
    · subst hkk
      exact alget_alset_isSome addr _ (by rw [hpost]; rfl)
    · rw [alget_alset_ne s.likes (u, addr) k rel hkk] at hk
      exact alget_alset_isSome addr _ (hs.like_post_present k hk)
  · intro addr2 post2 hpost2
    rw [likeCountOf_alset_none rel hnone addr2]
    by_cases haddr : addr2 = addr
    · subst haddr
      rw [alget_alset_self] at hpost2
      injection hpost2 with hpost2
      subst hpost2
      rw [if_pos rfl, hs.post_likes addr2 post hpost, u64_add_one_mod]
    · rw [alget_alset_ne s.posts addr addr2 _ haddr] at hpost2
      rw [if_neg (fun hx => haddr hx.symm)]
      exact hs.post_likes addr2 post2 hpost2
  · intro addr2 post2 hpost2
    by_cases haddr : addr2 = addr
    · subst haddr
      rw [alget_alset_self] at hpost2
      injection hpost2 with hpost2
      subst hpost2
      exact hs.post_reposts addr2 post hpost
    · rw [alget_alset_ne s.posts addr addr2 _ haddr] at hpost2
      exact hs.post_reposts addr2 post2 hpost2
  · intro addr2 post2 hpost2
    by_cases haddr : addr2 = addr
    · subst haddr
      rw [alget_alset_self] at hpost2
      injection hpost2 with hpost2
      subst hpost2
      exact hs.post_replies addr2 post hpost
    · rw [alget_alset_ne s.posts addr addr2 _ haddr] at hpost2
      exact hs.post_replies addr2 post2 hpost2

/-- Unliking a post preserves the invariant. -/
theorem invState_unlike {s : State} (hs : InvState s) {u : Pubkey}
    {addr : PostAddr} {rel : LikeRelation} {post : Post}
    (hsome : alget s.likes (u, addr) = some rel)
    (hpost : alget s.posts addr = some post) :
    InvState { s with likes := aldel s.likes (u, addr),
                      posts := alset s.posts addr
                        { post with likes := (post.likes + (U64MOD - 1)) % U64MOD } } := by
  have hcnt := likeCountOf_aldel_some hs.likes_nodup hsome
  refine ⟨keys_nodup_aldel hs.likes_nodup, ?_, ?_, ?_, ?_⟩
  · intro k hk
    by_cases hkk : k = (u, addr)
    · subst hkk
      rw [alget_aldel_self] at hk
      cases hk
    · rw [alget_aldel_ne s.likes (u, addr) k hkk] at hk
      exact alget_alset_isSome addr _ (hs.like_post_present k hk)
  · intro addr2 post2 hpost2
    by_cases haddr : addr2 = addr
    · subst haddr
      rw [alget_alset_self] at hpost2
      injection hpost2 with hpost2
      subst hpost2
      have h1 := hcnt addr2
      rw [if_pos rfl] at h1
      have h2 : 1 ≤ likeCountOf s.likes addr2 := by omega
      rw [hs.post_likes addr2 post hpost, u64_sub_one_mod _ h2]
      have h3 : likeCountOf s.likes addr2 - 1 = likeCountOf (aldel s.likes (u, addr2)) addr2 := by
        omega
      rw [h3]
    · rw [alget_alset_ne s.posts addr addr2 _ haddr] at hpost2
      have h1 := hcnt addr2
      rw [if_neg (fun hx => haddr hx.symm)] at h1
      rw [hs.post_likes addr2 post2 hpost2, h1]
      simp
  · intro addr2 post2 hpost2
    by_cases haddr : addr2 = addr
    · subst haddr
      rw [alget_alset_self] at hpost2
      injection hpost2 with hpost2
      subst hpost2
      exact hs.post_reposts addr2 post hpost
    · rw [alget_alset_ne s.posts addr addr2 _ haddr] at hpost2
      exact hs.post_reposts addr2 post2 hpost2
  · intro addr2 post2 hpost2
    by_cases haddr : addr2 = addr
    · subst haddr
      rw [alget_alset_self] at hpost2
      injection hpost2 with hpost2
      subst hpost2
      exact hs.post_replies addr2 post hpost
    · rw [alget_alset_ne s.posts addr addr2 _ haddr] at hpost2
      exact hs.post_replies addr2 post2 hpost2

/-- Linking an asset reference preserves the invariant (only `image_nft`
changes). -/
theorem invState_link {s : State} (hs : InvState s) {addr : PostAddr}
    {post : Post} (hpost : alget s.posts addr = some post) (cn : Pubkey) :
    InvState { s with posts := alset s.posts addr { post with image_nft := some cn } } := by
  refine ⟨hs.likes_nodup, ?_, ?_, ?_, ?_⟩
  · intro k hk
    exact alget_alset_isSome addr _ (hs.like_post_present k hk)
  · intro addr2 post2 hpost2
    by_cases haddr : addr2 = addr
    · subst haddr
      rw [alget_alset_self] at hpost2
      injection hpost2 with hpost2
      subst hpost2
      exact hs.post_likes addr2 post hpost
    · rw [alget_alset_ne s.posts addr addr2 _ haddr] at hpost2
      exact hs.post_likes addr2 post2 hpost2
  · intro addr2 post2 hpost2
    by_cases haddr : addr2 = addr
    · subst haddr
      rw [alget_alset_self] at hpost2
      injection hpost2 with hpost2
      subst hpost2
      exact hs.post_reposts addr2 post hpost
    · rw [alget_alset_ne s.posts addr addr2 _ haddr] at hpost2
      exact hs.post_reposts addr2 post2 hpost2
  · intro addr2 post2 hpost2
    by_cases haddr : addr2 = addr
    · subst haddr
      rw [alget_alset_self] at hpost2
      injection hpost2 with hpost2
      subst hpost2
      exact hs.post_replies addr2 post hpost
    · rw [alget_alset_ne s.posts addr addr2 _ haddr] at hpost2
      exact hs.post_replies addr2 post2 hpost2

theorem inv_create_text_post_ok {s s2 : State} {a t : Pubkey} {c : String}
    {ts : Int} {r : Option Pubkey} {rent bump : Nat}
    (h : create_text_post s a c ts r t rent bump = .ok s2) (hs : InvState s) :
    InvState s2 := by
  unfold create_text_post at h
  split at h
  · cases h
  rename_i habs
  split at h
  · cases h
  split at h
  · cases h
  split at h
  · cases h
  split at h
  · cases h
  split at h
  · cases h
  injection h with h2
  subst h2
  exact invState_create hs (Option.not_isSome_iff_eq_none.mp habs) rfl rfl rfl _ _

theorem inv_create_image_post_ok {s s2 : State} {a t : Pubkey} {c : String}
    {ts : Int} {r : Option Pubkey} {rent bump : Nat}
    (h : create_image_post s a c ts r t rent bump = .ok s2) (hs : InvState s) :
    InvState s2 := by
  unfold create_image_post at h
  split at h
  · cases h
  rename_i habs
  split at h
  · cases h
  split at h
  · cases h
  split at h
  · cases h
  split at h
  · cases h
  split at h
  · cases h
  injection h with h2
  subst h2
  exact invState_create hs (Option.not_isSome_iff_eq_none.mp habs) rfl rfl rfl _ _

theorem inv_link_cnft_to_post_ok {s s2 : State} {pa : PostAddr}
    {sg cn : Pubkey} (h : link_cnft_to_post s pa sg cn = .ok s2)
    (hs : InvState s) : InvState s2 := by
  simp only [link_cnft_to_post] at h
  split at h
  · cases h
  rename_i post hpost
  split at h
  · cases h
  injection h with h2
  subst h2
  exact invState_link hs hpost cn

theorem inv_like_post_ok {s s2 : State} {u : Pubkey} {pa : PostAddr}
    {now : Int} {b : Nat} (h : like_post s u pa now b = .ok s2)
    (hs : InvState s) : InvState s2 := by
  simp only [like_post] at h
  split at h
  · cases h
  rename_i hnone
  split at h
  · cases h
  rename_i post hpost
  injection h with h2
  subst h2
  exact invState_like hs (Option.not_isSome_iff_eq_none.mp hnone) hpost _

theorem inv_unlike_post_ok {s s2 : State} {u : Pubkey} {pa : PostAddr}
    (h : unlike_post s u pa = .ok s2) (hs : InvState s) : InvState s2 := by
  simp only [unlike_post] at h
  split at h
  · cases h
  rename_i rel hsome
  split at h
  · cases h
  rename_i post hpost
  injection h with h2
  subst h2
  exact invState_unlike hs hsome hpost

theorem follow_user_posts_likes {s s2 : State} {f g : Pubkey} {now : Int}
    {b : Nat} (h : follow_user s f g now b = .ok s2) :
    s2.posts = s.posts ∧ s2.likes = s.likes := by
  simp only [follow_user] at h
  split at h
  · cases h
  split at h
  · cases h
  split at h
  · cases h
  injection h with h2
  subst h2
  exact ⟨rfl, rfl⟩

theorem unfollow_user_posts_likes {s s2 : State} {f g : Pubkey}
    (h : unfollow_user s f g = .ok s2) :
    s2.posts = s.posts ∧ s2.likes = s.likes := by
  simp only [unfollow_user] at h
  split at h
  · cases h
  split at h
  · cases h
  split at h
  · cases h
  injection h with h2
  subst h2
  exact ⟨rfl, rfl⟩

theorem initialize_user_profile_posts_likes {s s2 : State} {u : Pubkey}
    {now : Int} {b : Nat} (h : initialize_user_profile s u now b = .ok s2) :
    s2.posts = s.posts ∧ s2.likes = s.likes := by
  simp only [initialize_user_profile] at h
  split at h
  · cases h
  injection h with h2
  subst h2
  exact ⟨rfl, rfl⟩

theorem update_user_profile_posts_likes {s s2 : State} {u : Pubkey}
    {a1 a2 a3 a4 a5 a6 a7 : Option String}
    (h : update_user_profile s u a1 a2 a3 a4 a5 a6 a7 = .ok s2) :
    s2.posts = s.posts ∧ s2.likes = s.likes := by
  simp only [update_user_profile] at h
  split at h
  · cases h
  split at h
  · cases h
  injection h with h2
  subst h2
  exact ⟨rfl, rfl⟩

/-- Every instruction preserves the structural invariant. -/
theorem invState_step {s : State} (op : Op) (hs : InvState s) :
    InvState (step s op) := by
  cases hrun : run s op with
  | error e =>
    have hse : step s op = s := by unfold step; rw [hrun]
    rw [hse]; exact hs
  | ok s2 =>
    have hse : step s op = s2 := by unfold step; rw [hrun]
    rw [hse]
    cases op with
    | initialize_app =>
      simp only [run] at hrun
      injection hrun with h2
      subst h2
      exact hs
    | create_text_post a c ts r t rent b =>
      simp only [run] at hrun
      exact inv_create_text_post_ok hrun hs
    | create_image_post a c ts r t rent b =>
      simp only [run] at hrun
      exact inv_create_image_post_ok hrun hs
    | link_cnft_to_post pa sg cn =>
      simp only [run] at hrun
      exact inv_link_cnft_to_post_ok hrun hs
    | follow_user f g now b =>
      simp only [run] at hrun
      have hpl := follow_user_posts_likes hrun
      exact invState_congr hpl.1 hpl.2 hs
    | unfollow_user f g =>
      simp only [run] at hrun
      have hpl := unfollow_user_posts_likes hrun
      exact invState_congr hpl.1 hpl.2 hs
    | like_post u pa now b =>
      simp only [run] at hrun
      exact inv_like_post_ok hrun hs
    | unlike_post u pa =>
      simp only [run] at hrun
      exact inv_unlike_post_ok hrun hs
    | initialize_user_profile u now b =>
      simp only [run] at hrun
      have hpl := initialize_user_profile_posts_likes hrun
      exact invState_congr hpl.1 hpl.2 hs
    | update_user_profile u a1 a2 a3 a4 a5 a6 a7 =>
      simp only [run] at hrun
      have hpl := update_user_profile_posts_likes hrun
      exact invState_congr hpl.1 hpl.2 hs

/-- Every reachable ledger satisfies the structural invariant. -/
theorem invState_reachable {s : State} (h : Reachable s) : InvState s := by
  induction h with
  | init b =>
    refine ⟨List.nodup_nil, ?_, ?_, ?_, ?_⟩
    · intro k hk; simp [alget] at hk
    · intro addr post hp; simp [alget] at hp
    · intro addr post hp; simp [alget] at hp
    · intro addr post hp; simp [alget] at hp
  | step s op hs ih => exact invState_step op ih

/-- A failed instruction leaves the committed ledger untouched. -/
theorem step_eq_of_error {s : State} {op : Op} {e : PgError}
    (h : run s op = .error e) : step s op = s := by
  unfold step; rw [h]

theorem transfer_lamports_ok_balances {bal : Pubkey → Nat}
    {fromAcc toAcc : Pubkey} {amount : Nat} {bal2 : Pubkey → Nat}
    (h : transfer_lamports bal fromAcc toAcc amount = .ok bal2)
    (hne : toAcc ≠ fromAcc) :
    bal2 toAcc = bal toAcc + amount ∧ bal2 fromAcc = bal fromAcc - amount := by
  unfold transfer_lamports at h
  rw [if_neg hne] at h
  split at h
  · cases h
  injection h with h2
  subst h2
  constructor
  · simp
  · simp [Ne.symm hne]

theorem create_text_post_ok_shape {s s2 : State} {a t : Pubkey} {c : String}
    {ts : Int} {r : Option Pubkey} {rent bump : Nat}
    (h : create_text_post s a c ts r t rent bump = .ok s2) :
    ∃ profile, alget s.profiles a = some profile ∧
      alget s.posts (a, ts) = none ∧
      transfer_lamports (fun k => if k = a then s.balances a - rent else s.balances k)
        a t (rent / 100) = .ok s2.balances ∧
      s2.posts = alset s.posts (a, ts)
        { author := a, content := c, post_type := 0, image_nft := none,
          reply_to := r, timestamp := ts, likes := 0, reposts := 0,
          replies := 0, bump := bump } ∧
      s2.profiles = alset s.profiles a
        { profile with post_count := (profile.post_count + 1) % U64MOD } := by
  unfold create_text_post at h
  split at h
  · cases h
  rename_i habs
  split at h
  · cases h
  rename_i profile hprof
  split at h
  · cases h
  split at h
  · cases h
  split at h
  · cases h
  split at h
  · cases h
  rename_i bal2 htr
  injection h with h2
  subst h2
  exact ⟨profile, hprof, Option.not_isSome_iff_eq_none.mp habs, htr, rfl, rfl⟩

theorem create_image_post_ok_shape {s s2 : State} {a t : Pubkey} {c : String}
    {ts : Int} {r : Option Pubkey} {rent bump : Nat}
    (h : create_image_post s a c ts r t rent bump = .ok s2) :
    ∃ profile, alget s.profiles a = some profile ∧
      alget s.posts (a, ts) = none ∧
      transfer_lamports (fun k => if k = a then s.balances a - rent else s.balances k)
        a t (rent / 10) = .ok s2.balances ∧
      s2.posts = alset s.posts (a, ts)
        { author := a, content := c, post_type := 1, image_nft := none,
          reply_to := r, timestamp := ts, likes := 0, reposts := 0,
          replies := 0, bump := bump } ∧
      s2.profiles = alset s.profiles a
        { profile with post_count := (profile.post_count + 1) % U64MOD } := by
  unfold create_image_post at h
  split at h
  · cases h
  rename_i habs
  split at h
  · cases h
  rename_i profile hprof
  split at h
  · cases h
  split at h
  · cases h
  split at h
  · cases h
  split at h
  · cases h
  rename_i bal2 htr
  injection h with h2
  subst h2
  exact ⟨profile, hprof, Option.not_isSome_iff_eq_none.mp habs, htr, rfl, rfl⟩

theorem create_text_post_ok_of {s : State} {a t : Pubkey} {c : String}
    {ts : Int} {r : Option Pubkey} {rent bump : Nat} {profile : UserProfile}
    (hprof : alget s.profiles a = some profile)
    (habs : alget s.posts (a, ts) = none)
    (hb1 : rent ≤ s.balances a)
    (hc1 : 1 ≤ c.utf8ByteSize) (hc2 : c.utf8ByteSize ≤ 280)
    (hb2 : rent / 100 ≤ s.balances a - rent) :
    ∃ s2, create_text_post s a c ts r t rent bump = .ok s2 := by
  have h280 : ¬ 280 < c.utf8ByteSize := Nat.not_lt.mpr hc2
  have h0 : ¬ c.utf8ByteSize = 0 := by omega
  have hnr : ¬ s.balances a < rent := Nat.not_lt.mpr hb1
  have hnf : ¬ s.balances a - rent < rent / 100 := Nat.not_lt.mpr hb2
  simp [create_text_post, transfer_lamports, habs, hprof, hnr, h280, h0, hnf]

theorem create_image_post_ok_of {s : State} {a t : Pubkey} {c : String}
    {ts : Int} {r : Option Pubkey} {rent bump : Nat} {profile : UserProfile}
    (hprof : alget s.profiles a = some profile)
    (habs : alget s.posts (a, ts) = none)
    (hb1 : rent ≤ s.balances a)
    (hc1 : 1 ≤ c.utf8ByteSize) (hc2 : c.utf8ByteSize ≤ 280)
    (hb2 : rent / 10 ≤ s.balances a - rent) :
    ∃ s2, create_image_post s a c ts r t rent bump = .ok s2 := by
  have h280 : ¬ 280 < c.utf8ByteSize := Nat.not_lt.mpr hc2
  have h0 : ¬ c.utf8ByteSize = 0 := by omega
  have hnr : ¬ s.balances a < rent := Nat.not_lt.mpr hb1
  have hnf : ¬ s.balances a - rent < rent / 10 := Nat.not_lt.mpr hb2
  simp [create_image_post, transfer_lamports, habs, hprof, hnr, h280, h0, hnf]

theorem create_text_post_error_long {s : State} {a t : Pubkey} {c : String}
    {ts : Int} {r : Option Pubkey} {rent bump : Nat} {profile : UserProfile}
    (hprof : alget s.profiles a = some profile)
    (habs : alget s.posts (a, ts) = none)
    (hb1 : rent ≤ s.balances a)
    (hc : 280 < c.utf8ByteSize) :
    create_text_post s a c ts r t rent bump = .error (.social .ContentTooLong) := by
  have hnr : ¬ s.balances a < rent := Nat.not_lt.mpr hb1
  simp [create_text_post, habs, hprof, hnr, hc]

theorem create_image_post_error_long {s : State} {a t : Pubkey} {c : String}
    {ts : Int} {r : Option Pubkey} {rent bump : Nat} {profile : UserProfile}
    (hprof : alget s.profiles a = some profile)
    (habs : alget s.posts (a, ts) = none)
    (hb1 : rent ≤ s.balances a)
    (hc : 280 < c.utf8ByteSize) :
    create_image_post s a c ts r t rent bump = .error (.social .ContentTooLong) := by
  have hnr : ¬ s.balances a < rent := Nat.not_lt.mpr hb1
  simp [create_image_post, habs, hprof, hnr, hc]

theorem create_text_post_error_empty {s : State} {a t : Pubkey} {c : String}
    {ts : Int} {r : Option Pubkey} {rent bump : Nat} {profile : UserProfile}
    (hprof : alget s.profiles a = some profile)
    (habs : alget s.posts (a, ts) = none)
    (hb1 : rent ≤ s.balances a)
    (hc : c.utf8ByteSize = 0) :
    create_text_post s a c ts r t rent bump = .error (.social .ContentEmpty) := by
  have hnr : ¬ s.balances a < rent := Nat.not_lt.mpr hb1
  have h280 : ¬ 280 < c.utf8ByteSize := by omega
  simp [create_text_post, habs, hprof, hnr, h280, hc]

theorem create_image_post_error_empty {s : State} {a t : Pubkey} {c : String}
    {ts : Int} {r : Option Pubkey} {rent bump : Nat} {profile : UserProfile}
    (hprof : alget s.profiles a = some profile)
    (habs : alget s.posts (a, ts) = none)
    (hb1 : rent ≤ s.balances a)
    (hc : c.utf8ByteSize = 0) :
    create_image_post s a c ts r t rent bump = .error (.social .ContentEmpty) := by
  have hnr : ¬ s.balances a < rent := Nat.not_lt.mpr hb1
  have h280 : ¬ 280 < c.utf8ByteSize := by omega
  simp [create_image_post, habs, hprof, hnr, h280, hc]

theorem create_text_post_error_fee {s : State} {a t : Pubkey} {c : String}
    {ts : Int} {r : Option Pubkey} {rent bump : Nat} {profile : UserProfile}
    (hprof : alget s.profiles a = some profile)
    (habs : alget s.posts (a, ts) = none)
    (hb1 : rent ≤ s.balances a)
    (hc1 : 1 ≤ c.utf8ByteSize) (hc2 : c.utf8ByteSize ≤ 280)
    (hlt : s.balances a - rent < rent / 100) :
    create_text_post s a c ts r t rent bump = .error .insufficientFunds := by
  have hnr : ¬ s.balances a < rent := Nat.not_lt.mpr hb1
  have h280 : ¬ 280 < c.utf8ByteSize := Nat.not_lt.mpr hc2
  have h0 : ¬ c.utf8ByteSize = 0 := by omega
  simp [create_text_post, transfer_lamports, habs, hprof, hnr, h280, h0, hlt]

theorem create_image_post_error_fee {s : State} {a t : Pubkey} {c : String}
    {ts : Int} {r : Option Pubkey} {rent bump : Nat} {profile : UserProfile}
    (hprof : alget s.profiles a = some profile)
    (habs : alget s.posts (a, ts) = none)
    (hb1 : rent ≤ s.balances a)
    (hc1 : 1 ≤ c.utf8ByteSize) (hc2 : c.utf8ByteSize ≤ 280)
    (hlt : s.balances a - rent < rent / 10) :
    create_image_post s a c ts r t rent bump = .error .insufficientFunds := by
  have hnr : ¬ s.balances a < rent := Nat.not_lt.mpr hb1
  have h280 : ¬ 280 < c.utf8ByteSize := Nat.not_lt.mpr hc2
  have h0 : ¬ c.utf8ByteSize = 0 := by omega
  simp [create_image_post, transfer_lamports, habs, hprof, hnr, h280, h0, hlt]

/-- The seven optional profile fields never go from present back to
absent. -/
def OptPreserve (p p2 : UserProfile) : Prop :=
  (p.username.isSome → p2.username.isSome) ∧
  (p.display_name.isSome → p2.display_name.isSome) ∧
  (p.bio.isSome → p2.bio.isSome) ∧
  (p.avatar_url.isSome → p2.avatar_url.isSome) ∧
  (p.cover_image_url.isSome → p2.cover_image_url.isSome) ∧
  (p.website_url.isSome → p2.website_url.isSome) ∧
  (p.location.isSome → p2.location.isSome)

theorem optPreserve_refl (p : UserProfile) : OptPreserve p p :=
  ⟨id, id, id, id, id, id, id⟩

theorem optPreserve_trans {p q r : UserProfile}
    (h1 : OptPreserve p q) (h2 : OptPreserve q r) : OptPreserve p r :=
  ⟨fun h => h2.1 (h1.1 h), fun h => h2.2.1 (h1.2.1 h),
   fun h => h2.2.2.1 (h1.2.2.1 h), fun h => h2.2.2.2.1 (h1.2.2.2.1 h),
   fun h => h2.2.2.2.2.1 (h1.2.2.2.2.1 h),
   fun h => h2.2.2.2.2.2.1 (h1.2.2.2.2.2.1 h),
   fun h => h2.2.2.2.2.2.2 (h1.2.2.2.2.2.2 h)⟩

theorem applyUsername_preserve {p p2 : UserProfile} {v : Option String}
    (h : applyUsername p v = .ok p2) : OptPreserve p p2 := by
  cases v with
  | none => injection h with h2; subst h2; exact optPreserve_refl p
  | some w =>
    simp only [applyUsername] at h
    split at h
    · cases h
    injection h with h2
    subst h2
    exact ⟨fun _ => rfl, id, id, id, id, id, id⟩

theorem applyDisplayName_preserve {p p2 : UserProfile} {v : Option String}
    (h : applyDisplayName p v = .ok p2) : OptPreserve p p2 := by
  cases v with
  | none => injection h with h2; subst h2; exact optPreserve_refl p
  | some w =>
    simp only [applyDisplayName] at h
    split at h
    · cases h
    injection h with h2
    subst h2
    exact ⟨id, fun _ => rfl, id, id, id, id, id⟩

theorem applyBio_preserve {p p2 : UserProfile} {v : Option String}
    (h : applyBio p v = .ok p2) : OptPreserve p p2 := by
  cases v with
  | none => injection h with h2; subst h2; exact optPreserve_refl p
  | some w =>
    simp only [applyBio] at h
    split at h
    · cases h
    injection h with h2
    subst h2
    exact ⟨id, id, fun _ => rfl, id, id, id, id⟩

theorem applyAvatarUrl_preserve {p p2 : UserProfile} {v : Option String}
    (h : applyAvatarUrl p v = .ok p2) : OptPreserve p p2 := by
  cases v with
  | none => injection h with h2; subst h2; exact optPreserve_refl p
  | some w =>
    simp only [applyAvatarUrl] at h
    split at h
    · cases h
    injection h with h2
    subst h2
    exact ⟨id, id, id, fun _ => rfl, id, id, id⟩

theorem applyCoverImageUrl_preserve {p p2 : UserProfile} {v : Option String}
    (h : applyCoverImageUrl p v = .ok p2) : OptPreserve p p2 := by
  cases v with
  | none => injection h with h2; subst h2; exact optPreserve_refl p
  | some w =>
    simp only [applyCoverImageUrl] at h
    split at h
    · cases h
    injection h with h2
    subst h2
    exact ⟨id, id, id, id, fun _ => rfl, id, id⟩

theorem applyWebsiteUrl_preserve {p p2 : UserProfile} {v : Option String}
    (h : applyWebsiteUrl p v = .ok p2) : OptPreserve p p2 := by
  cases v with
  | none => injection h with h2; subst h2; exact optPreserve_refl p
  | some w =>
    simp only [applyWebsiteUrl] at h
    split at h
    · cases h
    injection h with h2
    subst h2
    exact ⟨id, id, id, id, id, fun _ => rfl, id⟩

theorem applyLocation_preserve {p p2 : UserProfile} {v : Option String}
    (h : applyLocation p v = .ok p2) : OptPreserve p p2 := by
  cases v with
  | none => injection h with h2; subst h2; exact optPreserve_refl p
  | some w =>
    simp only [applyLocation] at h
    split at h
    · cases h
    injection h with h2
    subst h2
    exact ⟨id, id, id, id, id, id, fun _ => rfl⟩

theorem update_profile_fields_preserve {p p2 : UserProfile}
    {a1 a2 a3 a4 a5 a6 a7 : Option String}
    (h : update_profile_fields p a1 a2 a3 a4 a5 a6 a7 = .ok p2) :
    OptPreserve p p2 := by
  unfold update_profile_fields at h
  split at h
  · cases h
  rename_i q1 h1
  split at h
  · cases h
  rename_i q2 h2
  split at h
  · cases h
  rename_i q3 h3
  split at h
  · cases h
  rename_i q4 h4
  split at h
  · cases h
  rename_i q5 h5
  split at h
  · cases h
  rename_i q6 h6
  split at h
  · cases h
  rename_i q7 h7
  injection h with he
  subst he
  exact optPreserve_trans (applyUsername_preserve h1)
    (optPreserve_trans (applyDisplayName_preserve h2)
      (optPreserve_trans (applyBio_preserve h3)
        (optPreserve_trans (applyAvatarUrl_preserve h4)
          (optPreserve_trans (applyCoverImageUrl_preserve h5)
            (optPreserve_trans (applyWebsiteUrl_preserve h6)
              (applyLocation_preserve h7))))))

theorem applyUsername_ok_bound {p p2 : UserProfile} {v : String}
    (h : applyUsername p (some v) = .ok p2) : v.utf8ByteSize ≤ 50 := by
  simp only [applyUsername] at h
  split at h
  · cases h
  rename_i hle
  omega

theorem applyDisplayName_ok_bound {p p2 : UserProfile} {v : String}
    (h : applyDisplayName p (some v) = .ok p2) : v.utf8ByteSize ≤ 50 := by
  simp only [applyDisplayName] at h
  split at h
  · cases h
  rename_i hle
  omega

theorem applyBio_ok_bound {p p2 : UserProfile} {v : String}
    (h : applyBio p (some v) = .ok p2) : v.utf8ByteSize ≤ 160 := by
  simp only [applyBio] at h
  split at h
  · cases h
  rename_i hle
  omega

theorem applyAvatarUrl_ok_bound {p p2 : UserProfile} {v : String}
    (h : applyAvatarUrl p (some v) = .ok p2) : v.utf8ByteSize ≤ 200 := by
  simp only [applyAvatarUrl] at h
  split at h
  · cases h
  rename_i hle
  omega

theorem applyCoverImageUrl_ok_bound {p p2 : UserProfile} {v : String}
    (h : applyCoverImageUrl p (some v) = .ok p2) : v.utf8ByteSize ≤ 200 := by
  simp only [applyCoverImageUrl] at h
  split at h
  · cases h
  rename_i hle
  omega

theorem applyWebsiteUrl_ok_bound {p p2 : UserProfile} {v : String}
    (h : applyWebsiteUrl p (some v) = .ok p2) : v.utf8ByteSize ≤ 200 := by
  simp only [applyWebsiteUrl] at h
  split at h
  · cases h
  rename_i hle
  omega

theorem applyLocation_ok_bound {p p2 : UserProfile} {v : String}
    (h : applyLocation p (some v) = .ok p2) : v.utf8ByteSize ≤ 100 := by
  simp only [applyLocation] at h
  split at h
  · cases h
  rename_i hle
  omega

/-- A successful `update_user_profile` implies that every supplied field
was within its length limit. -/
theorem update_profile_fields_ok_bounds {p p2 : UserProfile}
    {a1 a2 a3 a4 a5 a6 a7 : Option String}
    (h : update_profile_fields p a1 a2 a3 a4 a5 a6 a7 = .ok p2) :
    (∀ v, a1 = some v → v.utf8ByteSize ≤ 50) ∧
    (∀ v, a2 = some v → v.utf8ByteSize ≤ 50) ∧
    (∀ v, a3 = some v → v.utf8ByteSize ≤ 160) ∧
    (∀ v, a4 = some v → v.utf8ByteSize ≤ 200) ∧
    (∀ v, a5 = some v → v.utf8ByteSize ≤ 200) ∧
    (∀ v, a6 = some v → v.utf8ByteSize ≤ 200) ∧
    (∀ v, a7 = some v → v.utf8ByteSize ≤ 100) := by
  unfold update_profile_fields at h
  split at h
  · cases h
  rename_i q1 h1
  split at h
  · cases h
  rename_i q2 h2
  split at h
  · cases h
  rename_i q3 h3
  split at h
  · cases h
  rename_i q4 h4
  split at h
  · cases h
  rename_i q5 h5
  split at h
  · cases h
  rename_i q6 h6
  split at h
  · cases h
  rename_i q7 h7
  refine ⟨?_, ?_, ?_, ?_, ?_, ?_, ?_⟩
  · intro v hv; subst hv; exact applyUsername_ok_bound h1
  · intro v hv; subst hv; exact applyDisplayName_ok_bound h2
  · intro v hv; subst hv; exact applyBio_ok_bound h3
  · intro v hv; subst hv; exact applyAvatarUrl_ok_bound h4
  · intro v hv; subst hv; exact applyCoverImageUrl_ok_bound h5
  · intro v hv; subst hv; exact applyWebsiteUrl_ok_bound h6
  · intro v hv; subst hv; exact applyLocation_ok_bound h7

/-- If some supplied field exceeds its limit the whole field update
fails, whatever the starting profile. -/
theorem update_profile_fields_error (p : UserProfile)
    {a1 a2 a3 a4 a5 a6 a7 : Option String}
    (hbad : (∃ v, a1 = some v ∧ 50 < v.utf8ByteSize) ∨
            (∃ v, a2 = some v ∧ 50 < v.utf8ByteSize) ∨
            (∃ v, a3 = some v ∧ 160 < v.utf8ByteSize) ∨
            (∃ v, a4 = some v ∧ 200 < v.utf8ByteSize) ∨
            (∃ v, a5 = some v ∧ 200 < v.utf8ByteSize) ∨
            (∃ v, a6 = some v ∧ 200 < v.utf8ByteSize) ∨
            (∃ v, a7 = some v ∧ 100 < v.utf8ByteSize)) :
    ∃ e, update_profile_fields p a1 a2 a3 a4 a5 a6 a7 = .error e := by
  cases hres : update_profile_fields p a1 a2 a3 a4 a5 a6 a7 with
  | error e => exact ⟨e, rfl⟩
  | ok p2 =>
    exfalso
    have hb := update_profile_fields_ok_bounds hres
    rcases hbad with ⟨v, hv, hlt⟩ | ⟨v, hv, hlt⟩ | ⟨v, hv, hlt⟩ | ⟨v, hv, hlt⟩ |
      ⟨v, hv, hlt⟩ | ⟨v, hv, hlt⟩ | ⟨v, hv, hlt⟩
    · have := hb.1 v hv; omega
    · have := hb.2.1 v hv; omega
    · have := hb.2.2.1 v hv; omega
    · have := hb.2.2.2.1 v hv; omega
    · have := hb.2.2.2.2.1 v hv; omega
    · have := hb.2.2.2.2.2.1 v hv; omega
    · have := hb.2.2.2.2.2.2 v hv; omega

/-- Supplying only a valid bio replaces exactly the bio field. -/
theorem update_profile_fields_bio_only (p : UserProfile) {b : String}
    (hb : b.utf8ByteSize ≤ 160) :
    update_profile_fields p none none (some b) none none none none =
      .ok { p with bio := some b } := by
  have h160 : ¬ 160 < b.utf8ByteSize := Nat.not_lt.mpr hb
  simp [update_profile_fields, applyUsername, applyDisplayName, applyBio,
    applyAvatarUrl, applyCoverImageUrl, applyWebsiteUrl, applyLocation, h160]

theorem follow_user_ok_shape {s s2 : State} {f g : Pubkey} {now : Int}
    {b : Nat} (h : follow_user s f g now b = .ok s2) :
    ∃ fp gp, alget s.profiles f = some fp ∧ alget s.profiles g = some gp ∧
      s2.profiles = alset (alset s.profiles f
          { fp with following_count := (fp.following_count + 1) % U64MOD }) g
          { gp with followers_count := (gp.followers_count + 1) % U64MOD } := by
  unfold follow_user at h
  split at h
  · cases h
  split at h
  · cases h
  rename_i fp hf
  split at h
  · cases h
  rename_i gp hg
  injection h with h2
  subst h2
  exact ⟨fp, gp, hf, hg, rfl⟩

theorem unfollow_user_ok_profiles {s s2 : State} {f g : Pubkey}
    (h : unfollow_user s f g = .ok s2) : s2.profiles = s.profiles := by
  unfold unfollow_user at h
  split at h
  · cases h
  split at h
  · cases h
  split at h
  · cases h
  injection h with h2
  subst h2
  rfl

theorem link_cnft_to_post_ok_profiles {s s2 : State} {pa : PostAddr}
    {sg cn : Pubkey} (h : link_cnft_to_post s pa sg cn = .ok s2) :
    s2.profiles = s.profiles := by
  unfold link_cnft_to_post at h
  split at h
  · cases h
  split at h
  · cases h
  injection h with h2
  subst h2
  rfl

theorem like_post_ok_profiles {s s2 : State} {u : Pubkey} {pa : PostAddr}
    {now : Int} {b : Nat} (h : like_post s u pa now b = .ok s2) :
    s2.profiles = s.profiles := by
  unfold like_post at h
  split at h
  · cases h
  split at h
  · cases h
  injection h with h2
  subst h2
  rfl

theorem unlike_post_ok_profiles {s s2 : State} {u : Pubkey} {pa : PostAddr}
    (h : unlike_post s u pa = .ok s2) : s2.profiles = s.profiles := by
  unfold unlike_post at h
  split at h
  · cases h
  split at h
  · cases h
  injection h with h2
  subst h2
  rfl

theorem initialize_user_profile_ok_shape {s s2 : State} {u : Pubkey}
    {now : Int} {b : Nat} (h : initialize_user_profile s u now b = .ok s2) :
    alget s.profiles u = none ∧
      s2.profiles = alset s.profiles u
        { user := u, username := none, display_name := none, bio := none,
          avatar_url := none, cover_image_url := none, website_url := none,
          location := none, followers_count := 0, following_count := 0,
          post_count := 0, created_at := now, verified := false, bump := b } := by
  unfold initialize_user_profile at h
  split at h
  · cases h
  rename_i habs
  injection h with h2
  subst h2
  exact ⟨Option.not_isSome_iff_eq_none.mp habs, rfl⟩

theorem update_user_profile_ok_shape {s s2 : State} {u : Pubkey}
    {a1 a2 a3 a4 a5 a6 a7 : Option String}
    (h : update_user_profile s u a1 a2 a3 a4 a5 a6 a7 = .ok s2) :
    ∃ q q2, alget s.profiles u = some q ∧
      update_profile_fields q a1 a2 a3 a4 a5 a6 a7 = .ok q2 ∧
      s2.profiles = alset s.profiles u q2 := by
  unfold update_user_profile at h
  split at h
  · cases h
  rename_i q hq
  split at h
  · cases h
  rename_i q2 hq2
  injection h with h2
  subst h2
  exact ⟨q, q2, hq, hq2, rfl⟩

/-- A freshly initialized profile, as `initialize_user_profile` writes
it at clock value 0 and bump 255. -/
def testProfile (u : Pubkey) : UserProfile :=
  { user := u, username := none, display_name := none, bio := none,
    avatar_url := none, cover_image_url := none, website_url := none,
    location := none, followers_count := 0, following_count := 0,
    post_count := 0, created_at := 0, verified := false, bump := 255 }

/-- Concrete ledger with two fresh profiles. -/
def demoState : State :=
  { posts := [], profiles := [(1, testProfile 1), (2, testProfile 2)],
    follows := [], likes := [], balances := fun _ => 1000000 }

/-- An image post written by author 1 at timestamp 5. -/
def demoImagePost : Post :=
  { author := 1, content := "pic", post_type := 1, image_nft := none,
    reply_to := none, timestamp := 5, likes := 0, reposts := 0,
    replies := 0, bump := 255 }

/-- Concrete ledger with one image post and its author profile. -/
def demoPostState : State :=
  { posts := [((1, 5), demoImagePost)], profiles := [(1, testProfile 1)],
    follows := [], likes := [], balances := fun _ => 1000000 }

/-- First instruction of the concrete reachable scenario. -/
def demoOp1 : Op := .initialize_user_profile 1 0 255

/-- Second instruction: a text post with zero rent deposit. -/
def demoOp2 : Op := .create_text_post 1 "hi" 5 none 7 0 255

/-- Reachable ledger holding profile 1 and the text post (1, 5). -/
def demoReachState : State :=
  step (step { posts := [], profiles := [], follows := [], likes := [],
               balances := fun _ => 1000000 } demoOp1) demoOp2

/-- Reachable ledger where user 2 has liked post (1, 5). -/
def demoLikedState : State := step demoReachState (.like_post 2 (1, 5) 10 255)

/-- The text post of `demoLikedState` after the like. -/
def demoLikedPost : Post :=
  { author := 1, content := "hi", post_type := 0, image_nft := none,
    reply_to := none, timestamp := 5, likes := 1, reposts := 0,
    replies := 0, bump := 255 }

/-- Rich concrete ledger for the fee scenarios. -/
def richState : State :=
  { posts := [], profiles := [(1, testProfile 1)], follows := [],
    likes := [], balances := fun _ => 1000 }

/-- Ledger whose author can pay the rent deposit but not the fee. -/
def poorState : State :=
  { posts := [], profiles := [(1, testProfile 1)], follows := [],
    likes := [], balances := fun _ => 100 }

/-- A text post written by author 1 at timestamp 5. -/
def demoTextPost : Post :=
  { author := 1, content := "hi", post_type := 0, image_nft := none,
    reply_to := none, timestamp := 5, likes := 0, reposts := 0,
    replies := 0, bump := 255 }

/-- Concrete ledger with one text post and its author profile. -/
def demoTextState : State :=
  { posts := [((1, 5), demoTextPost)], profiles := [(1, testProfile 1)],
    follows := [], likes := [], balances := fun _ => 1000000 }

/-- Claim C1: the spec says follow then unfollow is an inverse pair and
that `unfollow_user` decrements both counters.  The code evaluated at a
concrete failing input: user 1 (all counters zero) follows user 2 and
then unfollows; both instructions succeed, the FollowRelation record is
destroyed, yet following_count of user 1 and followers_count of user 2
remain at 1 because the empty body of `unfollow_user` never decrements
them. -/
theorem C1_unfollow_does_not_decrement :
    isOkB (run demoState (.follow_user 1 2 100 255)) = true ∧
    isOkB (run (step demoState (.follow_user 1 2 100 255)) (.unfollow_user 1 2)) = true ∧
    alget (step (step demoState (.follow_user 1 2 100 255)) (.unfollow_user 1 2)).follows (1, 2) = none ∧
    alget (step (step demoState (.follow_user 1 2 100 255)) (.unfollow_user 1 2)).profiles 1 =
      some { testProfile 1 with following_count := 1 } ∧
    alget (step (step demoState (.follow_user 1 2 100 255)) (.unfollow_user 1 2)).profiles 2 =
      some { testProfile 2 with followers_count := 1 } := by
  refine ⟨?_, ?_, ?_, ?_, ?_⟩ <;> decide

/-- Claim C3: the spec says post content edits require the signer to be
the declared author and a mismatched signer is rejected with the post
unchanged.  The code evaluated at a concrete failing input: the
`LinkCNftToPost` accounts struct ties nothing to `post.author`, so a
foreign signer (2, different from the author 1) successfully overwrites
`image_nft` of the post. -/
theorem C3_link_cnft_foreign_signer_succeeds :
    demoImagePost.author ≠ 2 ∧
    isOkB (run demoPostState (.link_cnft_to_post (1, 5) 2 99)) = true ∧
    alget (step demoPostState (.link_cnft_to_post (1, 5) 2 99)).posts (1, 5) =
      some { demoImagePost with image_nft := some 99 } := by
  refine ⟨?_, ?_, ?_⟩ <;> decide

/-- Claim C7: `link_cnft_to_post` on a Text post (post_type 0) fails
with NotImagePost whatever the signer and leaves the ledger unchanged;
on an Image post (post_type 1) it overwrites `image_nft` with the
supplied address - whatever was linked before - and changes no other
field of the post and nothing else in the ledger. -/
theorem C7_link_cnft_type_check (s : State) (addr : PostAddr)
    (signer cnft : Pubkey) (post : Post)
    (hp : alget s.posts addr = some post) :
    (post.post_type = 0 →
      run s (.link_cnft_to_post addr signer cnft) = .error (.social .NotImagePost) ∧
      step s (.link_cnft_to_post addr signer cnft) = s) ∧
    (post.post_type = 1 →
      run s (.link_cnft_to_post addr signer cnft) =
        .ok { s with posts := alset s.posts addr { post with image_nft := some cnft } }) := by
  constructor
  · intro h0
    have hrun : run s (.link_cnft_to_post addr signer cnft) = .error (.social .NotImagePost) := by
      simp [run, link_cnft_to_post, hp, h0]
    exact ⟨hrun, step_eq_of_error hrun⟩
  · intro h1
    simp [run, link_cnft_to_post, hp, h1]

/-- Witness for C7: a Text post rejects the link for a foreign signer
and for its own author alike, and an Image post accepts it, replacing
only `image_nft`. -/
theorem C7_witness :
    run demoTextState (.link_cnft_to_post (1, 5) 9 42) = .error (.social .NotImagePost) ∧
    step demoTextState (.link_cnft_to_post (1, 5) 9 42) = demoTextState ∧
    run demoPostState (.link_cnft_to_post (1, 5) 9 42) =
      .ok { demoPostState with posts := alset demoPostState.posts (1, 5) { demoImagePost with image_nft := some 42 } } := by
  refine ⟨?_, ?_, ?_⟩
  · exact ((C7_link_cnft_type_check demoTextState (1, 5) 9 42 demoTextPost (by decide)).1 (by decide)).1
  · exact ((C7_link_cnft_type_check demoTextState (1, 5) 9 42 demoTextPost (by decide)).1 (by decide)).2
  · exact (C7_link_cnft_type_check demoPostState (1, 5) 9 42 demoImagePost (by decide)).2 (by decide)

/-- Claim C9: `reposts` and `replies` are set to 0 at creation and no
operation of the surface ever writes them afterwards: in every ledger
reachable by any instruction sequence, every present post has
reposts = 0 and replies = 0. -/
theorem C9_reposts_replies_zero_invariant {s : State} (h : Reachable s) :
    ∀ addr post, alget s.posts addr = some post →
      post.reposts = 0 ∧ post.replies = 0 := by
  intro addr post hp
  have hi := invState_reachable h
  exact ⟨hi.post_reposts addr post hp, hi.post_replies addr post hp⟩

/-- Witness for C9 on a concrete reachable ledger holding one post. -/
theorem C9_witness :
    alget demoReachState.posts (1, 5) = some demoTextPost ∧
    demoTextPost.reposts = 0 ∧ demoTextPost.replies = 0 := by
  have hreach : Reachable demoReachState := by
    unfold demoReachState
    exact Reachable.step _ demoOp2 (Reachable.step _ demoOp1 (Reachable.init _))
  have hget : alget demoReachState.posts (1, 5) = some demoTextPost := by decide
  exact ⟨hget, C9_reposts_replies_zero_invariant hreach (1, 5) demoTextPost hget⟩

/-- An ASCII string of n bytes. -/
def longStr (n : Nat) : String := String.mk (List.replicate n 'a')

/-- A profile whose bio already holds a value. -/
def demoBioProfile : UserProfile := { testProfile 1 with bio := some "hey" }

/-- Concrete ledger with that profile. -/
def demoBioState : State :=
  { posts := [], profiles := [(1, demoBioProfile)], follows := [],
    likes := [], balances := fun _ => 0 }

/-- A profile update supplying only a username. -/
def demoUpdOp : Op := .update_user_profile 1 (some "name") none none none none none none

/-- Claim C2: when `update_user_profile` fails because some supplied
field exceeds its length limit, the transaction is discarded with no
partial write: the committed ledger - in particular every profile
field, including fields supplied earlier in the same call that passed
their own validation - is exactly as before the call. -/
theorem C2_update_profile_failure_no_partial_write (s : State) (user : Pubkey)
    (username display_name bio avatar_url cover_image_url website_url location : Option String)
    (p : UserProfile) (hp : alget s.profiles user = some p)
    (hbad : (∃ v, username = some v ∧ 50 < v.utf8ByteSize) ∨
            (∃ v, display_name = some v ∧ 50 < v.utf8ByteSize) ∨
            (∃ v, bio = some v ∧ 160 < v.utf8ByteSize) ∨
            (∃ v, avatar_url = some v ∧ 200 < v.utf8ByteSize) ∨
            (∃ v, cover_image_url = some v ∧ 200 < v.utf8ByteSize) ∨
            (∃ v, website_url = some v ∧ 200 < v.utf8ByteSize) ∨
            (∃ v, location = some v ∧ 100 < v.utf8ByteSize)) :
    (∃ e, run s (.update_user_profile user username display_name bio avatar_url cover_image_url website_url location) = .error e) ∧
    step s (.update_user_profile user username display_name bio avatar_url cover_image_url website_url location) = s ∧
    alget (step s (.update_user_profile user username display_name bio avatar_url cover_image_url website_url location)).profiles user = some p := by
  obtain ⟨e, he⟩ := update_profile_fields_error p hbad
  have hrun : run s (.update_user_profile user username display_name bio avatar_url cover_image_url website_url location) = .error e := by
    simp [run, update_user_profile, hp, he]
  have hstep := step_eq_of_error hrun
  refine ⟨⟨e, hrun⟩, hstep, ?_⟩
  rw [hstep]
  exact hp

set_option maxRecDepth 4000 in
/-- Witness for C2: a 161-byte bio makes the whole update fail and the
ledger, including the profile record, is unchanged. -/
theorem C2_witness :
    (∃ e, run demoState (.update_user_profile 1 none none (some (longStr 161)) none none none none) = .error e) ∧
    step demoState (.update_user_profile 1 none none (some (longStr 161)) none none none none) = demoState ∧
    alget (step demoState (.update_user_profile 1 none none (some (longStr 161)) none none none none)).profiles 1 = some (testProfile 1) :=
  C2_update_profile_failure_no_partial_write demoState 1 none none
    (some (longStr 161)) none none none none (testProfile 1) (by decide)
    (Or.inr (Or.inr (Or.inl ⟨longStr 161, rfl, by decide⟩)))

/-- Claim C8: supplying only a valid bio replaces exactly the bio
field: the record written back is literally `{ p with bio := some b }`,
so each of the other six optional fields, the three counters,
created_at, verified and the owner key are unchanged, and an omitted
field is never cleared. -/
theorem C8_update_bio_only_frame (s : State) (user : Pubkey) (b : String)
    (p : UserProfile) (hp : alget s.profiles user = some p)
    (hb : b.utf8ByteSize ≤ 160) :
    run s (.update_user_profile user none none (some b) none none none none) =
      .ok { s with profiles := alset s.profiles user { p with bio := some b } } ∧
    ({ p with bio := some b }).username = p.username ∧
    ({ p with bio := some b }).display_name = p.display_name ∧
    ({ p with bio := some b }).avatar_url = p.avatar_url ∧
    ({ p with bio := some b }).cover_image_url = p.cover_image_url ∧
    ({ p with bio := some b }).website_url = p.website_url ∧
    ({ p with bio := some b }).location = p.location ∧
    ({ p with bio := some b }).followers_count = p.followers_count ∧
    ({ p with bio := some b }).following_count = p.following_count ∧
    ({ p with bio := some b }).post_count = p.post_count ∧
    ({ p with bio := some b }).created_at = p.created_at ∧
    ({ p with bio := some b }).verified = p.verified ∧
    ({ p with bio := some b }).user = p.user ∧
    ({ p with bio := some b }).bio = some b := by
  have hf := update_profile_fields_bio_only p hb
  refine ⟨?_, rfl, rfl, rfl, rfl, rfl, rfl, rfl, rfl, rfl, rfl, rfl, rfl, rfl⟩
  simp [run, update_user_profile, hp, hf]

/-- Witness for C8 on a concrete profile. -/
theorem C8_witness :
    run demoState (.update_user_profile 1 none none (some "solcials") none none none none) =
      .ok { demoState with profiles := alset demoState.profiles 1 { testProfile 1 with bio := some "solcials" } } :=
  (C8_update_bio_only_frame demoState 1 "solcials" (testProfile 1) (by decide) (by decide)).1

/-- Claim C10: once an optional profile string field holds a value, no
instruction of the surface can return it to absent:
`initialize_user_profile` only runs where no profile exists, and
`update_user_profile` either leaves a field untouched or replaces it
with a new present value; every other instruction leaves the optional
fields of every stored profile unchanged. -/
theorem C10_optional_fields_never_cleared (s : State) (op : Op) (u : Pubkey)
    (p p2 : UserProfile) (hp : alget s.profiles u = some p)
    (hp2 : alget (step s op).profiles u = some p2) :
    OptPreserve p p2 := by
  cases hrun : run s op with
  | error e =>
    rw [step_eq_of_error hrun, hp] at hp2
    injection hp2 with h2
    subst h2
    exact optPreserve_refl _
  | ok s2 =>
    have hse : step s op = s2 := by unfold step; rw [hrun]
    rw [hse] at hp2
    cases op with
    | initialize_app =>
      simp only [run] at hrun
      injection hrun with h2
      subst h2
      rw [hp] at hp2
      injection hp2 with h2
      subst h2
      exact optPreserve_refl _
    | create_text_post a c ts r t rent bump =>
      simp only [run] at hrun
      obtain ⟨profile, hprof, _, _, _, hpr⟩ := create_text_post_ok_shape hrun
      rw [hpr] at hp2
      by_cases hu : u = a
      · subst hu
        rw [alget_alset_self] at hp2
        rw [hp] at hprof
        injection hprof with h3
        subst h3
        injection hp2 with h2
        subst h2
        exact ⟨id, id, id, id, id, id, id⟩
      · rw [alget_alset_ne _ _ _ _ hu, hp] at hp2
        injection hp2 with h2
        subst h2
        exact optPreserve_refl _
    | create_image_post a c ts r t rent bump =>
      simp only [run] at hrun
      obtain ⟨profile, hprof, _, _, _, hpr⟩ := create_image_post_ok_shape hrun
      rw [hpr] at hp2
      by_cases hu : u = a
      · subst hu
        rw [alget_alset_self] at hp2
        rw [hp] at hprof
        injection hprof with h3
        subst h3
        injection hp2 with h2
        subst h2
        exact ⟨id, id, id, id, id, id, id⟩
      · rw [alget_alset_ne _ _ _ _ hu, hp] at hp2
        injection hp2 with h2
        subst h2
        exact optPreserve_refl _
    | link_cnft_to_post pa sg cn =>
      simp only [run] at hrun
      rw [link_cnft_to_post_ok_profiles hrun, hp] at hp2
      injection hp2 with h2
      subst h2
      exact optPreserve_refl _
    | follow_user f g now b =>
      simp only [run] at hrun
      obtain ⟨fp, gp, hf, hg, hpr⟩ := follow_user_ok_shape hrun
      rw [hpr] at hp2
      by_cases hug : u = g
      · subst hug
        rw [alget_alset_self] at hp2
        rw [hp] at hg
        injection hg with h3
        subst h3
        injection hp2 with h2
        subst h2
        exact ⟨id, id, id, id, id, id, id⟩
      · rw [alget_alset_ne _ _ _ _ hug] at hp2
        by_cases huf : u = f
        · subst huf
          rw [alget_alset_self] at hp2
          rw [hp] at hf
          injection hf with h3
          subst h3
          injection hp2 with h2
          subst h2
          exact ⟨id, id, id, id, id, id, id⟩
        · rw [alget_alset_ne _ _ _ _ huf, hp] at hp2
          injection hp2 with h2
          subst h2
          exact optPreserve_refl _
    | unfollow_user f g =>
      simp only [run] at hrun
      rw [unfollow_user_ok_profiles hrun, hp] at hp2
      injection hp2 with h2
      subst h2
      exact optPreserve_refl _
    | like_post lu pa now b =>
      simp only [run] at hrun
      rw [like_post_ok_profiles hrun, hp] at hp2
      injection hp2 with h2
      subst h2
      exact optPreserve_refl _
    | unlike_post lu pa =>
      simp only [run] at hrun
      rw [unlike_post_ok_profiles hrun, hp] at hp2
      injection hp2 with h2
      subst h2
      exact optPreserve_refl _
    | initialize_user_profile u2 now b =>
      simp only [run] at hrun
      obtain ⟨habs, hpr⟩ := initialize_user_profile_ok_shape hrun
      rw [hpr] at hp2
      by_cases hu : u = u2
      · subst hu
        rw [habs] at hp
        cases hp
      · rw [alget_alset_ne _ _ _ _ hu, hp] at hp2
        injection hp2 with h2
        subst h2
        exact optPreserve_refl _
    | update_user_profile u2 a1 a2 a3 a4 a5 a6 a7 =>
      simp only [run] at hrun
      obtain ⟨q, q2, hq, hq2, hpr⟩ := update_user_profile_ok_shape hrun
      rw [hpr] at hp2
      by_cases hu : u = u2
      · subst hu
        rw [alget_alset_self] at hp2
        rw [hp] at hq
        injection hq with h3
        subst h3
        injection hp2 with h2
        subst h2
        exact update_profile_fields_preserve hq2
      · rw [alget_alset_ne _ _ _ _ hu, hp] at hp2
        injection hp2 with h2
        subst h2
        exact optPreserve_refl _

/-- Witness for C10: a profile whose bio is present keeps a present bio
through a username-only update. -/
theorem C10_witness :
    alget (step demoBioState demoUpdOp).profiles 1 =
      some { demoBioProfile with username := some "name" } ∧
    demoBioProfile.bio.isSome = true ∧
    OptPreserve demoBioProfile { demoBioProfile with username := some "name" } := by
  refine ⟨by decide, by decide, ?_⟩
  exact C10_optional_fields_never_cleared demoBioState demoUpdOp 1 demoBioProfile
    { demoBioProfile with username := some "name" } (by decide) (by decide)

/-- Claim C4: like then unlike on the same (user, post) restores
Post.likes to its pre-like value and removes the LikeRelation; an
unlike with no LikeRelation at the derived address (in particular a
second unlike) fails with the ledger unchanged, so no double decrement
happens; and in every reachable ledger the stored likes counter of a
post equals the number of existing like relations for it, so whenever a
relation exists the counter is at least 1 and the decrement of
`unlike_post` cannot take it below zero. -/
theorem C4_like_unlike_inverse_zero_floor :
    (∀ (s : State) (u : Pubkey) (addr : PostAddr) (now : Int) (bump : Nat) (post : Post),
      alget s.likes (u, addr) = none →
      alget s.posts addr = some post →
      post.likes < U64MOD →
      ∃ s1 s2, run s (.like_post u addr now bump) = .ok s1 ∧
        run s1 (.unlike_post u addr) = .ok s2 ∧
        alget s2.posts addr = some post ∧
        alget s2.likes (u, addr) = none) ∧
    (∀ (s : State) (u : Pubkey) (addr : PostAddr),
      alget s.likes (u, addr) = none →
      (∃ e, run s (.unlike_post u addr) = .error e) ∧
      step s (.unlike_post u addr) = s) ∧
    (∀ (s : State) (u : Pubkey) (addr : PostAddr) (rel : LikeRelation) (post : Post),
      Reachable s →
      alget s.likes (u, addr) = some rel →
      alget s.posts addr = some post →
      likeCountOf s.likes addr < U64MOD →
      1 ≤ post.likes ∧ post.likes = likeCountOf s.likes addr) := by
  refine ⟨?_, ?_, ?_⟩
  · intro s u addr now bump post hnone hpost hlt
    obtain ⟨pa, pc, pt, pi, pr, pts, pl, prep, prepl, pb⟩ := post
    have h1 : run s (.like_post u addr now bump) = .ok
        { s with likes := alset s.likes (u, addr) { user := u, post := addr, timestamp := now, bump := bump },
                 posts := alset s.posts addr { author := pa, content := pc, post_type := pt, image_nft := pi, reply_to := pr, timestamp := pts, likes := (pl + 1) % U64MOD, reposts := prep, replies := prepl, bump := pb } } := by
      simp [run, like_post, hnone, hpost]
    have h2 : run
        { s with likes := alset s.likes (u, addr) { user := u, post := addr, timestamp := now, bump := bump },
                 posts := alset s.posts addr { author := pa, content := pc, post_type := pt, image_nft := pi, reply_to := pr, timestamp := pts, likes := (pl + 1) % U64MOD, reposts := prep, replies := prepl, bump := pb } }
        (.unlike_post u addr) = .ok
        { s with likes := aldel (alset s.likes (u, addr) { user := u, post := addr, timestamp := now, bump := bump }) (u, addr),
                 posts := alset (alset s.posts addr { author := pa, content := pc, post_type := pt, image_nft := pi, reply_to := pr, timestamp := pts, likes := (pl + 1) % U64MOD, reposts := prep, replies := prepl, bump := pb }) addr { author := pa, content := pc, post_type := pt, image_nft := pi, reply_to := pr, timestamp := pts, likes := ((pl + 1) % U64MOD + (U64MOD - 1)) % U64MOD, reposts := prep, replies := prepl, bump := pb } } := by
      simp [run, unlike_post, alget_alset_self]
    refine ⟨_, _, h1, h2, ?_, ?_⟩
    · rw [alget_alset_self, u64_inc_dec pl hlt]
    · rw [alget_aldel_self]
  · intro s u addr hnone
    have hrun : run s (.unlike_post u addr) = .error .accountNotInitialized := by
      simp [run, unlike_post, hnone]
    exact ⟨⟨_, hrun⟩, step_eq_of_error hrun⟩
  · intro s u addr rel post hreach hrel hpost hcnt
    have hi := invState_reachable hreach
    have hlikes := hi.post_likes addr post hpost
    rw [Nat.mod_eq_of_lt hcnt] at hlikes
    have hone := one_le_likeCountOf hi hrel
    exact ⟨by omega, hlikes⟩

/-- Witness for C4 on concrete ledgers: a like/unlike round trip on the
image post, a rejected unlike with no relation, and the counter/count
agreement on a reachable liked ledger. -/
theorem C4_witness :
    (∃ s1 s2, run demoPostState (.like_post 3 (1, 5) 10 255) = .ok s1 ∧
      run s1 (.unlike_post 3 (1, 5)) = .ok s2 ∧
      alget s2.posts (1, 5) = some demoImagePost ∧
      alget s2.likes (3, (1, 5)) = none) ∧
    ((∃ e, run demoPostState (.unlike_post 3 (1, 5)) = .error e) ∧
      step demoPostState (.unlike_post 3 (1, 5)) = demoPostState) ∧
    (1 ≤ demoLikedPost.likes ∧
      demoLikedPost.likes = likeCountOf demoLikedState.likes (1, 5)) := by
  have hreach : Reachable demoLikedState := by
    unfold demoLikedState demoReachState
    exact Reachable.step _ _ (Reachable.step _ demoOp2 (Reachable.step _ demoOp1 (Reachable.init _)))
  refine ⟨?_, ?_, ?_⟩
  · exact C4_like_unlike_inverse_zero_floor.1 demoPostState 3 (1, 5) 10 255
      demoImagePost (by decide) (by decide) (by decide)
  · exact C4_like_unlike_inverse_zero_floor.2.1 demoPostState 3 (1, 5) (by decide)
  · exact C4_like_unlike_inverse_zero_floor.2.2 demoLikedState 2 (1, 5)
      { user := 2, post := (1, 5), timestamp := 10, bump := 255 } demoLikedPost
      hreach (by decide) (by decide) (by decide)

/-- Claim C5: with the account constraints satisfiable (author profile
present, post address free, author able to pay deposit and fee), both
create instructions succeed for every content whose UTF-8 byte length
lies in [1, 280]; byte length 0 fails with ContentEmpty and byte length
over 280 fails with ContentTooLong, and in both failure cases the
ledger is unchanged: no Post record at the derived address and the
author post_count (indeed the whole profile) as before. -/
theorem C5_post_creation_content_validation
    (s : State) (author treasury : Pubkey) (content : String) (ts : Int)
    (reply_to : Option Pubkey) (rent bump : Nat) (profile : UserProfile)
    (hprof : alget s.profiles author = some profile)
    (habs : alget s.posts (author, ts) = none)
    (hbal : rent + rent / 10 ≤ s.balances author) :
    (1 ≤ content.utf8ByteSize → content.utf8ByteSize ≤ 280 →
      (∃ s2, run s (.create_text_post author content ts reply_to treasury rent bump) = .ok s2) ∧
      (∃ s2, run s (.create_image_post author content ts reply_to treasury rent bump) = .ok s2)) ∧
    (content.utf8ByteSize = 0 →
      run s (.create_text_post author content ts reply_to treasury rent bump) = .error (.social .ContentEmpty) ∧
      run s (.create_image_post author content ts reply_to treasury rent bump) = .error (.social .ContentEmpty) ∧
      step s (.create_text_post author content ts reply_to treasury rent bump) = s ∧
      step s (.create_image_post author content ts reply_to treasury rent bump) = s ∧
      alget (step s (.create_text_post author content ts reply_to treasury rent bump)).posts (author, ts) = none ∧
      alget (step s (.create_text_post author content ts reply_to treasury rent bump)).profiles author = some profile) ∧
    (280 < content.utf8ByteSize →
      run s (.create_text_post author content ts reply_to treasury rent bump) = .error (.social .ContentTooLong) ∧
      run s (.create_image_post author content ts reply_to treasury rent bump) = .error (.social .ContentTooLong) ∧
      step s (.create_text_post author content ts reply_to treasury rent bump) = s ∧
      step s (.create_image_post author content ts reply_to treasury rent bump) = s ∧
      alget (step s (.create_text_post author content ts reply_to treasury rent bump)).posts (author, ts) = none ∧
      alget (step s (.create_text_post author content ts reply_to treasury rent bump)).profiles author = some profile) := by
  have hb1 : rent ≤ s.balances author := le_trans (Nat.le_add_right _ _) hbal
  have hb2 : rent / 10 ≤ s.balances author - rent := by omega
  have hb3 : rent / 100 ≤ s.balances author - rent :=
    le_trans (Nat.div_le_div_left (by omega) (by omega)) hb2
  refine ⟨?_, ?_, ?_⟩
  · intro h1 h2
    exact ⟨create_text_post_ok_of hprof habs hb1 h1 h2 hb3,
           create_image_post_ok_of hprof habs hb1 h1 h2 hb2⟩
  · intro h0
    have he1 : run s (.create_text_post author content ts reply_to treasury rent bump) = .error (.social .ContentEmpty) :=
      create_text_post_error_empty hprof habs hb1 h0
    have he2 : run s (.create_image_post author content ts reply_to treasury rent bump) = .error (.social .ContentEmpty) :=
      create_image_post_error_empty hprof habs hb1 h0
    have hs1 := step_eq_of_error he1
    have hs2 := step_eq_of_error he2
    refine ⟨he1, he2, hs1, hs2, ?_, ?_⟩
    · rw [hs1]; exact habs
    · rw [hs1]; exact hprof
  · intro hlong
    have he1 : run s (.create_text_post author content ts reply_to treasury rent bump) = .error (.social .ContentTooLong) :=
      create_text_post_error_long hprof habs hb1 hlong
    have he2 : run s (.create_image_post author content ts reply_to treasury rent bump) = .error (.social .ContentTooLong) :=
      create_image_post_error_long hprof habs hb1 hlong
    have hs1 := step_eq_of_error he1
    have hs2 := step_eq_of_error he2
    refine ⟨he1, he2, hs1, hs2, ?_, ?_⟩
    · rw [hs1]; exact habs
    · rw [hs1]; exact hprof

set_option maxRecDepth 8000 in
/-- Witness for C5 at concrete contents of byte lengths 2, 0 and 281. -/
theorem C5_witness :
    (∃ s2, run richState (.create_text_post 1 "hi" 5 none 9 100 255) = .ok s2) ∧
    (∃ s2, run richState (.create_image_post 1 "hi" 5 none 9 100 255) = .ok s2) ∧
    run richState (.create_text_post 1 "" 5 none 9 100 255) = .error (.social .ContentEmpty) ∧
    run richState (.create_image_post 1 "" 5 none 9 100 255) = .error (.social .ContentEmpty) ∧
    step richState (.create_text_post 1 "" 5 none 9 100 255) = richState ∧
    run richState (.create_text_post 1 (longStr 281) 5 none 9 100 255) = .error (.social .ContentTooLong) ∧
    run richState (.create_image_post 1 (longStr 281) 5 none 9 100 255) = .error (.social .ContentTooLong) := by
  have happ1 := C5_post_creation_content_validation richState 1 9 "hi" 5 none 100 255
    (testProfile 1) (by decide) (by decide) (by decide)
  have happ2 := C5_post_creation_content_validation richState 1 9 "" 5 none 100 255
    (testProfile 1) (by decide) (by decide) (by decide)
  have happ3 := C5_post_creation_content_validation richState 1 9 (longStr 281) 5 none 100 255
    (testProfile 1) (by decide) (by decide) (by decide)
  obtain ⟨hok1, hok2⟩ := happ1.1 (by decide) (by decide)
  obtain ⟨he1, he2, hs1, _, _, _⟩ := happ2.2.1 (by decide)
  obtain ⟨hl1, hl2, _, _, _, _⟩ := happ3.2.2 (by decide)
  exact ⟨hok1, hok2, he1, he2, hs1, hl1, hl2⟩

/-- Claim C6: on successful creation the platform fee equals the rent
deposit of the post account divided by 100 for a text post and by 10
for an image post, and exactly that amount moves from the author to the
treasury in the same instruction; if the author cannot pay the fee the
whole creation fails and no Post record is created. -/
theorem C6_platform_fee (s : State) (author treasury : Pubkey)
    (content : String) (ts : Int) (reply_to : Option Pubkey)
    (rent bump : Nat) (profile : UserProfile)
    (hprof : alget s.profiles author = some profile)
    (habs : alget s.posts (author, ts) = none)
    (hta : treasury ≠ author)
    (hc1 : 1 ≤ content.utf8ByteSize) (hc2 : content.utf8ByteSize ≤ 280)
    (hrent : rent ≤ s.balances author) :
    (rent / 100 ≤ s.balances author - rent →
      ∃ s2, run s (.create_text_post author content ts reply_to treasury rent bump) = .ok s2 ∧
        s2.balances treasury = s.balances treasury + rent / 100 ∧
        s2.balances author = s.balances author - rent - rent / 100 ∧
        (alget s2.posts (author, ts)).isSome) ∧
    (s.balances author - rent < rent / 100 →
      run s (.create_text_post author content ts reply_to treasury rent bump) = .error .insufficientFunds ∧
      step s (.create_text_post author content ts reply_to treasury rent bump) = s ∧
      alget (step s (.create_text_post author content ts reply_to treasury rent bump)).posts (author, ts) = none) ∧
    (rent / 10 ≤ s.balances author - rent →
      ∃ s2, run s (.create_image_post author content ts reply_to treasury rent bump) = .ok s2 ∧
        s2.balances treasury = s.balances treasury + rent / 10 ∧
        s2.balances author = s.balances author - rent - rent / 10 ∧
        (alget s2.posts (author, ts)).isSome) ∧
    (s.balances author - rent < rent / 10 →
      run s (.create_image_post author content ts reply_to treasury rent bump) = .error .insufficientFunds ∧
      step s (.create_image_post author content ts reply_to treasury rent bump) = s ∧
      alget (step s (.create_image_post author content ts reply_to treasury rent bump)).posts (author, ts) = none) := by
  refine ⟨?_, ?_, ?_, ?_⟩
  · intro hfee
    obtain ⟨s2, hok⟩ : ∃ s2, create_text_post s author content ts reply_to treasury rent bump = .ok s2 :=
      create_text_post_ok_of hprof habs hrent hc1 hc2 hfee
    obtain ⟨profile2, _, _, htr, hposts, _⟩ := create_text_post_ok_shape hok
    have hbal := transfer_lamports_ok_balances htr hta
    have hbt := hbal.1
    have hba := hbal.2
    refine ⟨s2, hok, ?_, ?_, ?_⟩
    · simpa [hta] using hbt
    · simpa using hba
    · rw [hposts, alget_alset_self]
      rfl
  · intro hlt
    have he : run s (.create_text_post author content ts reply_to treasury rent bump) = .error .insufficientFunds :=
      create_text_post_error_fee hprof habs hrent hc1 hc2 hlt
    have hs := step_eq_of_error he
    refine ⟨he, hs, ?_⟩
    rw [hs]
    exact habs
  · intro hfee
    obtain ⟨s2, hok⟩ : ∃ s2, create_image_post s author content ts reply_to treasury rent bump = .ok s2 :=
      create_image_post_ok_of hprof habs hrent hc1 hc2 hfee
    obtain ⟨profile2, _, _, htr, hposts, _⟩ := create_image_post_ok_shape hok
    have hbal := transfer_lamports_ok_balances htr hta
    have hbt := hbal.1
    have hba := hbal.2
    refine ⟨s2, hok, ?_, ?_, ?_⟩
    · simpa [hta] using hbt
    · simpa using hba
    · rw [hposts, alget_alset_self]
      rfl
  · intro hlt
    have he : run s (.create_image_post author content ts reply_to treasury rent bump) = .error .insufficientFunds :=
      create_image_post_error_fee hprof habs hrent hc1 hc2 hlt
    have hs := step_eq_of_error he
    refine ⟨he, hs, ?_⟩
    rw [hs]
    exact habs

/-- Witness for C6: with a 100-lamport deposit the fee is 1 for a text
post and 10 for an image post; an author holding only the deposit
cannot pay either fee and the creation fails. -/
theorem C6_witness :
    (∃ s2, run richState (.create_text_post 1 "hi" 5 none 9 100 255) = .ok s2 ∧
      s2.balances 9 = richState.balances 9 + 100 / 100 ∧
      s2.balances 1 = richState.balances 1 - 100 - 100 / 100 ∧
      (alget s2.posts (1, 5)).isSome) ∧
    run poorState (.create_text_post 1 "hi" 5 none 9 100 255) = .error .insufficientFunds ∧
    (∃ s2, run richState (.create_image_post 1 "hi" 5 none 9 100 255) = .ok s2 ∧
      s2.balances 9 = richState.balances 9 + 100 / 10 ∧
      s2.balances 1 = richState.balances 1 - 100 - 100 / 10 ∧
      (alget s2.posts (1, 5)).isSome) ∧
    run poorState (.create_image_post 1 "hi" 5 none 9 100 255) = .error .insufficientFunds := by
  have hrich := C6_platform_fee richState 1 9 "hi" 5 none 100 255 (testProfile 1)
    (by decide) (by decide) (by decide) (by decide) (by decide) (by decide)
  have hpoor := C6_platform_fee poorState 1 9 "hi" 5 none 100 255 (testProfile 1)
    (by decide) (by decide) (by decide) (by decide) (by decide) (by decide)
  exact ⟨hrich.1 (by decide), (hpoor.2.1 (by decide)).1,
         hrich.2.2.1 (by decide), (hpoor.2.2.2 (by decide)).1⟩

end Solcials
